import Mathlib

/-!
# cbang `cb::MariaDB::DB` — the non-blocking operation state machine

A shallow embedding of `src/cbang/db/maria/DB.cpp`.

* The members of `DB` become the fields of the structure `DB`.
* A member function becomes a function `DB → Out α`: the value returned or the
  exception thrown, the members afterwards (a C++ exception leaves the object
  as it was at the `throw`), and the protocol calls made on the client library.
* The client library is external.  Whatever it answers to the one protocol call
  an operation makes is an argument `r : LibReply` of that operation.
-/

namespace MariaDB

/-! ## Data model -/

/-- Opaque connection handle, a non-null `st_mysql *`. -/
abbrev Handle := Nat

/-- Modelled from the spec: `Field::type_t` of the missing `Field.h`, the declared
type of a column.  Only the types `DB.cpp` names are told apart. -/
inductive type_t
  | TYPE_BIT
  | TYPE_SET
  | TYPE_YEAR
  | TYPE_DATE
  | TYPE_TIME
  | TYPE_TIMESTAMP
  | TYPE_DATETIME
  | TYPE_OTHER (code : Nat)
deriving DecidableEq, Repr

/-- Column metadata `MYSQL_FIELD`, one element of the array `mysql_fetch_fields`
returns, reduced to the declared type of the column. -/
structure MYSQL_FIELD where
  type : type_t
deriving DecidableEq, Repr

/-- Modelled from the spec: the class `Field` of the missing `Field.h`, a wrapper
around a `MYSQL_FIELD *`.  The pointer is given by the array it points into and
the index of the element; the index may lie past the end of the array. -/
structure Field where
  array : List MYSQL_FIELD
  index : Nat
deriving DecidableEq, Repr

/-- One row, `MYSQL_ROW`: for every column the bytes of the field, found at
`current_row[i]`; the library puts a zero byte after them. -/
abbrev MYSQL_ROW := List (List Char)

/-- The library object behind `MYSQL_RES *res`, reduced to what `DB.cpp` reads:
`mysql_num_rows`, `mysql_num_fields`, `mysql_fetch_fields`, `res->current_row`
and `res->lengths` / `mysql_fetch_lengths`. -/
structure MYSQL_RES where
  row_count : Nat
  field_count : Nat
  fields : List MYSQL_FIELD
  current_row : Option MYSQL_ROW
  lengths : List Nat
deriving DecidableEq, Repr

/-- The member functions `continueFunc` can point to. -/
inductive continue_func_t
  | closeContinue
  | connectContinue
  | useContinue
  | queryContinue
  | storeResultContinue
  | nextResultContinue
  | freeResultContinue
  | fetchRowContinue
deriving DecidableEq, Repr

/-- The data members of `cb::MariaDB::DB`.  A null pointer is `none`. -/
structure DB where
  db : Option Handle
  res : Option MYSQL_RES
  nonBlocking : Bool
  connected : Bool
  stored : Bool
  status : Int
  continueFunc : Option continue_func_t
deriving DecidableEq, Repr

/-- What a member function throws.  `THROW msg` is the macro `THROW`/`THROWS`
with that text; `raiseError msg` is `DB::raiseError(msg)`, whose text is
`"MariaDB: " msg ": "` followed by the library error string;
`undefinedBehaviour` is not an exception: it marks a read through a null
pointer or past the end of an array. -/
inductive Exn
  | THROW (msg : String)
  | raiseError (msg : String)
  | undefinedBehaviour (what : String)
deriving DecidableEq, Repr

/-- Arguments of `connect` and `connectNB`. -/
structure ConnectArgs where
  host : String
  user : String
  password : String
  dbName : String
  port : Nat
  socketName : String
  flags : Nat
deriving DecidableEq, Repr

/-- The protocol calls on the client library, with the arguments that are not
the handle.  Pure accessors (`mysql_num_rows`, `mysql_num_fields`,
`mysql_fetch_fields`, `mysql_fetch_lengths`, `mysql_error`) are field reads and
are not recorded. -/
inductive LibCall
  | mysql_init
  | mysql_options (option : String)
  | mysql_real_connect (a : ConnectArgs)
  | mysql_real_connect_start (a : ConnectArgs)
  | mysql_real_connect_cont (ready : Nat)
  | mysql_close
  | mysql_close_start
  | mysql_close_cont (ready : Nat)
  | mysql_select_db (dbName : String)
  | mysql_select_db_start (dbName : String)
  | mysql_select_db_cont (ready : Nat)
  | mysql_real_query (s : String)
  | mysql_real_query_start (s : String)
  | mysql_real_query_cont (ready : Nat)
  | mysql_use_result
  | mysql_store_result
  | mysql_store_result_start
  | mysql_store_result_cont (ready : Nat)
  | mysql_next_result
  | mysql_next_result_start
  | mysql_next_result_cont (ready : Nat)
  | mysql_free_result
  | mysql_free_result_start
  | mysql_free_result_cont (ready : Nat)
  | mysql_fetch_row
  | mysql_fetch_row_start
  | mysql_fetch_row_cont (ready : Nat)
  | mysql_data_seek (row : Nat)
deriving DecidableEq, Repr

/-- The answer of the library to one protocol call.
* `status`: the value a `_start` / `_cont` call returns (0 = finished);
* `handle`: the `MYSQL *` a connect call returns or leaves in its output slot;
* `ret`: the `int` a call returns or leaves in its output slot;
* `res`: the `MYSQL_RES *` a use/store-result call returns or leaves in `res`;
* `row`: the `MYSQL_ROW` a fetch call returns or leaves in its output slot;
* `obj`: the contents of the result object after a call that was given `res`
  (fetch, seek, free). -/
structure LibReply where
  status : Int
  handle : Option Handle
  ret : Int
  res : Option MYSQL_RES
  row : Option MYSQL_ROW
  obj : MYSQL_RES
deriving DecidableEq, Repr

/-- Outcome of a member function: returned value or exception, the members
afterwards, the protocol calls made. -/
structure Out (α : Type) where
  ret : Except Exn α
  st : DB
  calls : List LibCall

/-- A member function of `DB`. -/
def M (α : Type) : Type := DB → Out α

/-- The same outcome, after the protocol calls `cs` were made first. -/
def Out.after {α : Type} (cs : List LibCall) : Out α → Out α
  | ⟨x, d, cs2⟩ => ⟨x, d, cs ++ cs2⟩

/-- Sequencing: the second step runs only when the first one did not throw. -/
def M.bind {α β : Type} (m : M α) (f : α → M β) : M β := fun d =>
  match m d with
  | ⟨.ok a, d1, cs⟩ => (f a d1).after cs
  | ⟨.error e, d1, cs⟩ => ⟨.error e, d1, cs⟩

instance : Monad M where
  pure a := fun d => ⟨.ok a, d, []⟩
  bind := M.bind

/-- Throw an exception; the members stay as they are. -/
def throwExn {α : Type} (e : Exn) : M α := fun d => ⟨.error e, d, []⟩

/-- Read the members. -/
def getDB : M DB := fun d => ⟨.ok d, d, []⟩

/-- Assign to members. -/
def modifyDB (f : DB → DB) : M Unit := fun d => ⟨.ok (), f d, []⟩

/-- Make one protocol call on the library. -/
def lib (c : LibCall) : M Unit := fun d => ⟨.ok (), d, [c]⟩

/-- The macro `THROW(msg)` / `THROWS(msg)`. -/
def THROW {α : Type} (msg : String) : M α := throwExn (.THROW msg)

/-- `DB::raiseError`. -/
def raiseError {α : Type} (msg : String) : M α := throwExn (.raiseError msg)

/-! ## Assertions (`DB.cpp` 595-633) -/

/-- `DB::haveResult`: `return res`. -/
def haveResult (d : DB) : Bool := d.res.isSome

/-- `DB::haveRow`: `return res && res->current_row`. -/
def haveRow (d : DB) : Bool :=
  match d.res with
  | some r => r.current_row.isSome
  | none => false

/-- `DB::assertConnected`. -/
def assertConnected : M Unit := do
  let d ← getDB
  if !d.connected then THROW "Not connected"

/-- `DB::assertPending`. -/
def assertPending : M Unit := do
  let d ← getDB
  if !d.nonBlocking || d.status = 0 then THROW "Connect not pending"

/-- `DB::assertNotPending`. -/
def assertNotPending : M Unit := do
  let d ← getDB
  if d.status ≠ 0 then raiseError "Non-blocking call still pending"

/-- `DB::assertNonBlocking`. -/
def assertNonBlocking : M Unit := do
  let d ← getDB
  if !d.nonBlocking then raiseError "Connection is not in nonBlocking mode"

/-- `DB::assertHaveResult`. -/
def assertHaveResult : M Unit := do
  let d ← getDB
  if !haveResult d then
    raiseError "Don't have result, must call query() and useResult() or storeResult()"

/-- `DB::assertDontHaveResult`. -/
def assertDontHaveResult : M Unit := do
  let d ← getDB
  if haveResult d then raiseError "Already have result, must call freeResult()"

/-- `DB::assertHaveRow`. -/
def assertHaveRow : M Unit := do
  let d ← getDB
  if !haveRow d then raiseError "Don't have row, must call fetchRow()"

/-! ## Construction and options (`DB.cpp` 58-176) -/

/-- Modelled from the spec: the bit constants of `DB::ready_t` (missing `DB.h`)
and the `MYSQL_WAIT_*` constants of the library header, taken as parameters. -/
structure Consts where
  READY_READ : Nat
  READY_WRITE : Nat
  READY_TIMEOUT : Nat
  MYSQL_WAIT_READ : Nat
  MYSQL_WAIT_WRITE : Nat
  MYSQL_WAIT_TIMEOUT : Nat
deriving DecidableEq, Repr

/-- The function `ready_to_mysql` of the anonymous namespace. -/
def ready_to_mysql (c : Consts) (ready : Nat) : Nat :=
  let x := 0
  let x := if ready &&& c.READY_READ ≠ 0 then x ||| c.MYSQL_WAIT_READ else x
  let x := if ready &&& c.READY_WRITE ≠ 0 then x ||| c.MYSQL_WAIT_WRITE else x
  let x := if ready &&& c.READY_TIMEOUT ≠ 0 then x ||| c.MYSQL_WAIT_TIMEOUT else x
  x

/-- The constructor `DB::DB(st_mysql *db)`.  `init` is what `mysql_init(0)` returns
if it is called.  `res` is not in the initialiser list, so its first value `res0`
is an argument.  The test in the body reads the parameter `db`, which hides the
member of the same name. -/
def construct (db : Option Handle) (init : Option Handle) (res0 : Option MYSQL_RES) :
    Except Exn DB × List LibCall :=
  let member := if db.isSome then db else init
  let calls := if db.isSome then [] else [LibCall.mysql_init]
  if db.isNone then (.error (.THROW "Failed to create MariaDB"), calls)
  else (.ok ⟨member, res0, false, false, false, 0, none⟩, calls)

/-- The option setters of lines 83-169 (`setInitCommand` .. `setCharacterSet`):
one `mysql_options` call, `THROW` when it returns 0, no member is assigned. -/
def setOption (option msg : String) (r : LibReply) : M Unit := do
  lib (.mysql_options option)
  if r.ret = 0 then THROW msg

/-- `DB::enableNonBlocking`. -/
def enableNonBlocking (r : LibReply) : M Unit := do
  lib (.mysql_options "MYSQL_OPT_NONBLOCK")
  if r.ret = 0 then THROW "Failed to set MariaDB to non-blocking mode"
  modifyDB fun d => { d with nonBlocking := true }

/-! ## Start entry points (`DB.cpp` 179-440) -/

/-- `DB::connect`. -/
def connect (a : ConnectArgs) (r : LibReply) : M Unit := do
  assertNotPending
  lib (.mysql_real_connect a)
  if r.handle.isNone then raiseError "Failed to connect"
  modifyDB fun d => { d with connected := true }

/-- `DB::connectNB`. -/
def connectNB (a : ConnectArgs) (r : LibReply) : M Bool := do
  assertNotPending
  assertNonBlocking
  lib (.mysql_real_connect_start a)
  modifyDB fun d => { d with status := r.status }
  let d ← getDB
  if d.status ≠ 0 then
    modifyDB fun d => { d with continueFunc := some .connectContinue }
    pure false
  else
    if r.handle.isNone then raiseError "Failed to connect"
    modifyDB fun d => { d with connected := true }
    pure true

/-- `DB::close`. -/
def close : M Unit := do
  assertConnected
  assertNotPending
  assertDontHaveResult
  lib .mysql_close
  modifyDB fun d => { d with connected := false }

/-- `DB::closeNB`. -/
def closeNB (r : LibReply) : M Bool := do
  assertConnected
  assertNotPending
  assertNonBlocking
  assertDontHaveResult
  lib .mysql_close_start
  modifyDB fun d => { d with status := r.status }
  let d ← getDB
  if d.status ≠ 0 then
    modifyDB fun d => { d with continueFunc := some .closeContinue }
    pure false
  else
    modifyDB fun d => { d with connected := false }
    pure true

/-- `DB::use`. -/
def use (dbName : String) (r : LibReply) : M Unit := do
  assertConnected
  assertNotPending
  lib (.mysql_select_db dbName)
  if r.ret ≠ 0 then raiseError "Failed to select DB"

/-- `DB::useNB`. -/
def useNB (dbName : String) (r : LibReply) : M Bool := do
  assertConnected
  assertNotPending
  assertNonBlocking
  lib (.mysql_select_db_start dbName)
  modifyDB fun d => { d with status := r.status }
  let d ← getDB
  if d.status ≠ 0 then
    modifyDB fun d => { d with continueFunc := some .useContinue }
    pure false
  else
    if r.ret ≠ 0 then raiseError "Failed to select DB"
    pure true

/-- `DB::query`. -/
def query (s : String) (r : LibReply) : M Unit := do
  assertConnected
  assertNotPending
  lib (.mysql_real_query s)
  if r.ret ≠ 0 then raiseError "Query failed"

/-- `DB::queryNB`. -/
def queryNB (s : String) (r : LibReply) : M Bool := do
  assertConnected
  assertNotPending
  assertNonBlocking
  lib (.mysql_real_query_start s)
  modifyDB fun d => { d with status := r.status }
  let d ← getDB
  if d.status ≠ 0 then
    modifyDB fun d => { d with continueFunc := some .queryContinue }
    pure false
  else
    if r.ret ≠ 0 then raiseError "Query failed"
    pure true

/-- `DB::useResult`. -/
def useResult (r : LibReply) : M Unit := do
  assertConnected
  assertNotPending
  assertDontHaveResult
  lib .mysql_use_result
  modifyDB fun d => { d with res := r.res }
  let d ← getDB
  if d.res.isNone then THROW "Failed to use result"
  modifyDB fun d => { d with stored := false }

/-- `DB::storeResult`. -/
def storeResult (r : LibReply) : M Unit := do
  assertConnected
  assertNotPending
  assertDontHaveResult
  lib .mysql_store_result
  modifyDB fun d => { d with res := r.res }
  let d ← getDB
  if d.res.isNone then raiseError "Failed to store result"
  modifyDB fun d => { d with stored := true }

/-- `DB::storeResultNB`.  The library is handed `&res`: the member holds
whatever the call leaves in that slot. -/
def storeResultNB (r : LibReply) : M Bool := do
  assertConnected
  assertNotPending
  assertNonBlocking
  assertDontHaveResult
  lib .mysql_store_result_start
  modifyDB fun d => { d with status := r.status, res := r.res }
  let d ← getDB
  if d.status ≠ 0 then
    modifyDB fun d => { d with continueFunc := some .storeResultContinue }
    pure false
  else
    if d.res.isNone then raiseError "Failed to store result"
    modifyDB fun d => { d with stored := true }
    pure true

/-- `DB::nextResult`. -/
def nextResult (r : LibReply) : M Bool := do
  assertConnected
  assertNotPending
  lib .mysql_next_result
  if 0 < r.ret then raiseError "Failed get next result"
  pure (r.ret == 0)

/-- `DB::nextResultNB`. -/
def nextResultNB (r : LibReply) : M Bool := do
  assertConnected
  assertNotPending
  assertNonBlocking
  lib .mysql_next_result_start
  modifyDB fun d => { d with status := r.status }
  let d ← getDB
  if d.status ≠ 0 then
    modifyDB fun d => { d with continueFunc := some .nextResultContinue }
    pure false
  else
    if 0 < r.ret then raiseError "Failed get next result"
    pure true

/-- `DB::freeResult`. -/
def freeResult : M Unit := do
  assertNotPending
  assertHaveResult
  lib .mysql_free_result
  modifyDB fun d => { d with res := none }

/-- `DB::freeResultNB`. -/
def freeResultNB (r : LibReply) : M Bool := do
  assertNotPending
  assertNonBlocking
  assertHaveResult
  lib .mysql_free_result_start
  modifyDB fun d => { d with status := r.status }
  let d ← getDB
  if d.status ≠ 0 then
    modifyDB fun d => { d with continueFunc := some .freeResultContinue }
    pure false
  else
    modifyDB fun d => { d with res := none }
    pure true

/-- A library call that is handed the pointer `res` leaves the result object
with the contents `obj`; a null pointer stays null. -/
def touchRes (obj : MYSQL_RES) : M Unit :=
  modifyDB fun d => { d with res := d.res.map fun _ => obj }

/-- `DB::fetchRow`. -/
def fetchRow (r : LibReply) : M Bool := do
  assertNotPending
  assertHaveResult
  lib .mysql_fetch_row
  touchRes r.obj
  pure r.row.isSome

/-- `DB::fetchRowNB`. -/
def fetchRowNB (r : LibReply) : M Bool := do
  assertNotPending
  assertNonBlocking
  assertHaveResult
  lib .mysql_fetch_row_start
  touchRes r.obj
  modifyDB fun d => { d with status := r.status }
  let d ← getDB
  if d.status ≠ 0 then
    modifyDB fun d => { d with continueFunc := some .fetchRowContinue }
    pure false
  else
    pure true

/-! ## Result cursor (`DB.cpp` 408-482, 515-577, 631-633) -/

/-- Read through the pointer `res`. -/
def derefRes : M MYSQL_RES := do
  let d ← getDB
  match d.res with
  | some x => pure x
  | none => throwExn (.undefinedBehaviour "res is null")

/-- Read through the pointer `res->current_row`. -/
def derefRow : M MYSQL_ROW := do
  let x ← derefRes
  match x.current_row with
  | some row => pure row
  | none => throwExn (.undefinedBehaviour "current_row is null")

/-- The array read `xs[i]`. -/
def readAt {α : Type} (xs : List α) (i : Nat) : M α :=
  match xs[i]? with
  | some x => pure x
  | none => throwExn (.undefinedBehaviour "read past the end of an array")

/-- `DB::getRowCount`. -/
def getRowCount : M Nat := do
  assertHaveResult
  let x ← derefRes
  pure x.row_count

/-- `DB::getFieldCount`. -/
def getFieldCount : M Nat := do
  assertHaveRow
  let x ← derefRes
  pure x.field_count

/-- `DB::seekRow`. -/
def seekRow (row : Nat) (r : LibReply) : M Unit := do
  assertHaveResult
  let d ← getDB
  if !d.stored then THROW "Must use storeResult() before seekRow()"
  let x ← derefRes
  if x.row_count ≤ row then THROW ("Row seek out of range " ++ toString row)
  lib (.mysql_data_seek row)
  touchRes r.obj

/-- `DB::assertInFieldRange`. -/
def assertInFieldRange (i : Nat) : M Unit := do
  let n ← getFieldCount
  if n ≤ 0 then THROW ("Out of field range " ++ toString i)

/-- `DB::getField`: `return &mysql_fetch_fields(res)[i]`.  The address is formed
and wrapped in a `Field`; nothing is read through it here. -/
def getField (i : Nat) : M Field := do
  assertInFieldRange i
  let x ← derefRes
  pure ⟨x.fields, i⟩

/-- Modelled from the spec: `Field::getType` of the missing `Field.h`, the
declared type read through the wrapped pointer. -/
def Field.getType (f : Field) : M type_t := do
  let x ← readAt f.array f.index
  pure x.type

/-- `DB::getType`: `return getField(i).getType()`. -/
def getType (i : Nat) : M type_t := do
  let f ← getField i
  f.getType

/-- `DB::getLength`; the `unsigned long` length is returned as `unsigned`. -/
def getLength (i : Nat) : M Nat := do
  assertInFieldRange i
  let x ← derefRes
  let n ← readAt x.lengths i
  pure (n % 2 ^ 32)

/-- `DB::getData`. -/
def getData (i : Nat) : M (List Char) := do
  assertInFieldRange i
  let row ← derefRow
  readAt row i

/-- `DB::getString`: `length` bytes starting at `current_row[i]`. -/
def getString (i : Nat) : M (List Char) := do
  let length ← getLength i
  let row ← derefRow
  let s ← readAt row i
  pure (s.take length)

/-- Modelled from the spec: the number routines `DB::getTime` calls, from the
missing `String.h` and `Time.h`, over a type `τ` standing for `double`:
the value 0, addition, `String::parseDouble` and `Time::parse(text, format)`
converted to `double`.  Both parsers can throw. -/
structure TimeOps (τ : Type) where
  zero : τ
  add : τ → τ → τ
  parseDouble : List Char → Except Exn τ
  parse : List Char → String → Except Exn τ

/-- Run a routine that returns or throws without touching the connection. -/
def liftExcept {α : Type} : Except Exn α → M α
  | .ok a => pure a
  | .error e => throwExn e

/-- The C string at `current_row[i]`: the bytes before the first zero byte. -/
def cstr (s : List Char) : List Char := s.takeWhile fun ch => ch ≠ Char.ofNat 0

/-- The expression `decimal + Time::parse(time, format)`. -/
def addParsed {τ : Type} (P : TimeOps τ) (decimal : τ) (time : List Char) (format : String) :
    M τ := do
  let t ← liftExcept (P.parse time format)
  pure (P.add decimal t)

/-- `DB::getTime`.  `dot` is the offset `strchr(s, '.')` finds, if any; the
decimal part is parsed before the type of the column is looked at. -/
def getTime {τ : Type} (P : TimeOps τ) (i : Nat) : M τ := do
  assertInFieldRange i
  let row ← derefRow
  let s ← readAt row i
  let x ← derefRes
  let len0 ← readAt x.lengths i
  let dot := (cstr s).indexOf '.'
  let found := decide (dot < (cstr s).length)
  let decimal ← if found then liftExcept (P.parseDouble ((cstr s).drop dot)) else pure P.zero
  let len := if found then dot else len0 % 2 ^ 32
  let time := s.take len
  let ty ← getType i
  match ty with
  | .TYPE_YEAR =>
    if len = 2 then addParsed P decimal time "%y" else addParsed P decimal time "%Y"
  | .TYPE_DATE => addParsed P decimal time "%Y-%m-%d"
  | .TYPE_TIME => addParsed P decimal time "%H%M%S"
  | .TYPE_TIMESTAMP => addParsed P decimal time "%Y-%m-%d %H%M%S"
  | .TYPE_DATETIME => addParsed P decimal time "%Y-%m-%d %H%M%S"
  | _ => THROW "Invalid time type"

/-- The loop of `DB::getBit` over the bytes at `current_row[i]`.  It stops at the
first zero byte; the end of the list is the zero byte the library puts after
the field.  `x` is the `uint64_t` accumulator. -/
def getBitLoop : List Char → Nat → Nat
  | [], x => x
  | ch :: rest, x =>
    if ch = Char.ofNat 0 then x
    else
      let x := (x <<< 1) % 2 ^ 64
      let x := if ch = '1' then x ||| 1 else x
      getBitLoop rest x

/-- `DB::getBit`. -/
def getBit (i : Nat) : M Nat := do
  let ty ← getType i
  if ty ≠ .TYPE_BIT then THROW ("Field " ++ toString i ++ " is not bit")
  let row ← derefRow
  let s ← readAt row i
  pure (getBitLoop s 0)

/-- The loop of `DB::getSet` over the bytes at `current_row[i]`.  `cur` holds the
bytes from `start` up to `end`; the set is a list without repetition.  The loop
stops at the first zero byte; the end of the list is the zero byte the library
puts after the field. -/
def getSetLoop : List Char → List Char → List (List Char) → List (List Char)
  | [], _, s => s
  | ch :: rest, cur, s =>
    if ch = Char.ofNat 0 then s
    else if ch = ',' then getSetLoop rest [] (s.insert cur)
    else getSetLoop rest (cur ++ [ch]) s

/-- `DB::getSet`; `s` is the set passed by reference, the returned list is its
content afterwards. -/
def getSet (i : Nat) (s : List (List Char)) : M (List (List Char)) := do
  let ty ← getType i
  if ty ≠ .TYPE_SET then THROW ("Field " ++ toString i ++ " is not a set")
  let row ← derefRow
  let txt ← readAt row i
  pure (getSetLoop txt [] s)

/-! ## Continuations (`DB.cpp` 636-640, 721-802) -/

/-- `DB::closeContinue`. -/
def closeContinue (c : Consts) (ready : Nat) (r : LibReply) : M Bool := do
  lib (.mysql_close_cont (ready_to_mysql c ready))
  modifyDB fun d => { d with status := r.status }
  let d ← getDB
  if d.status ≠ 0 then pure false
  else
    modifyDB fun d => { d with connected := false }
    pure true

/-- `DB::connectContinue`. -/
def connectContinue (c : Consts) (ready : Nat) (r : LibReply) : M Bool := do
  lib (.mysql_real_connect_cont (ready_to_mysql c ready))
  modifyDB fun d => { d with status := r.status }
  let d ← getDB
  if d.status ≠ 0 then pure false
  else
    if r.handle.isNone then THROW "Failed to connect"
    modifyDB fun d => { d with connected := true }
    pure true

/-- `DB::useContinue`. -/
def useContinue (c : Consts) (ready : Nat) (r : LibReply) : M Bool := do
  lib (.mysql_select_db_cont (ready_to_mysql c ready))
  modifyDB fun d => { d with status := r.status }
  let d ← getDB
  if d.status ≠ 0 then pure false
  else
    if r.ret ≠ 0 then THROW "Failed to select DB"
    pure true

/-- `DB::queryContinue`. -/
def queryContinue (c : Consts) (ready : Nat) (r : LibReply) : M Bool := do
  lib (.mysql_real_query_cont (ready_to_mysql c ready))
  modifyDB fun d => { d with status := r.status }
  let d ← getDB
  if d.status ≠ 0 then pure false
  else
    if r.ret ≠ 0 then THROW "Query failed"
    pure true

/-- `DB::storeResultContinue`. -/
def storeResultContinue (c : Consts) (ready : Nat) (r : LibReply) : M Bool := do
  lib (.mysql_store_result_cont (ready_to_mysql c ready))
  modifyDB fun d => { d with status := r.status, res := r.res }
  let d ← getDB
  if d.status ≠ 0 then pure false
  else
    if d.res.isNone then THROW "Failed to store result"
    modifyDB fun d => { d with stored := true }
    pure true

/-- `DB::nextResultContinue`. -/
def nextResultContinue (c : Consts) (ready : Nat) (r : LibReply) : M Bool := do
  lib (.mysql_next_result_cont (ready_to_mysql c ready))
  modifyDB fun d => { d with status := r.status }
  let d ← getDB
  if d.status ≠ 0 then pure false
  else
    if 0 < r.ret then THROW "Failed to get next result"
    pure true

/-- `DB::freeResultContinue`. -/
def freeResultContinue (c : Consts) (ready : Nat) (r : LibReply) : M Bool := do
  lib (.mysql_free_result_cont (ready_to_mysql c ready))
  modifyDB fun d => { d with status := r.status }
  let d ← getDB
  if d.status ≠ 0 then pure false
  else
    modifyDB fun d => { d with res := none }
    pure true

/-- `DB::fetchRowContinue`. -/
def fetchRowContinue (c : Consts) (ready : Nat) (r : LibReply) : M Bool := do
  lib (.mysql_fetch_row_cont (ready_to_mysql c ready))
  touchRes r.obj
  modifyDB fun d => { d with status := r.status }
  let d ← getDB
  pure (d.status == 0)

/-- The call `(this->*continueFunc)(ready)` through the member pointer. -/
def callContinue (f : continue_func_t) (c : Consts) (ready : Nat) (r : LibReply) :
    M Bool :=
  match f with
  | .closeContinue => closeContinue c ready r
  | .connectContinue => connectContinue c ready r
  | .useContinue => useContinue c ready r
  | .queryContinue => queryContinue c ready r
  | .storeResultContinue => storeResultContinue c ready r
  | .nextResultContinue => nextResultContinue c ready r
  | .freeResultContinue => freeResultContinue c ready r
  | .fetchRowContinue => fetchRowContinue c ready r

/-- `DB::continueNB`. -/
def continueNB (c : Consts) (ready : Nat) (r : LibReply) : M Bool := do
  assertPending
  let d ← getDB
  match d.continueFunc with
  | none => THROW "Continue function not set"
  | some f => callContinue f c ready r

/-! ## Wait tests (`DB.cpp` 643-655) -/

/-- `DB::waitRead`: `return status & MYSQL_WAIT_READ`. -/
def waitRead (c : Consts) (d : DB) : Bool := Int.land d.status c.MYSQL_WAIT_READ != 0

/-- `DB::waitWrite`: `return status & MYSQL_WAIT_WRITE`. -/
def waitWrite (c : Consts) (d : DB) : Bool := Int.land d.status c.MYSQL_WAIT_WRITE != 0

/-- `DB::waitTimeout`: `return status & MYSQL_WAIT_TIMEOUT`. -/
def waitTimeout (c : Consts) (d : DB) : Bool := Int.land d.status c.MYSQL_WAIT_TIMEOUT != 0

/-! ## The public operations as one transition system -/

/-- A call of a public member function that can assign to a member, together
with the answer of the library to the protocol call it makes.  The class
declaration (`DB.h`) is not among the sources; the `*Continue` members are taken
to be internal, called through `continueFunc` by `continueNB` only, which is
their one use in `DB.cpp`. -/
inductive Op
  | setOption (option msg : String) (r : LibReply)
  | enableNonBlocking (r : LibReply)
  | connect (a : ConnectArgs) (r : LibReply)
  | connectNB (a : ConnectArgs) (r : LibReply)
  | close
  | closeNB (r : LibReply)
  | use (dbName : String) (r : LibReply)
  | useNB (dbName : String) (r : LibReply)
  | query (s : String) (r : LibReply)
  | queryNB (s : String) (r : LibReply)
  | useResult (r : LibReply)
  | storeResult (r : LibReply)
  | storeResultNB (r : LibReply)
  | nextResult (r : LibReply)
  | nextResultNB (r : LibReply)
  | freeResult
  | freeResultNB (r : LibReply)
  | fetchRow (r : LibReply)
  | fetchRowNB (r : LibReply)
  | seekRow (row : Nat) (r : LibReply)
  | continueNB (ready : Nat) (r : LibReply)
deriving DecidableEq, Repr

/-- Run a member function and drop the value it returns. -/
def void {α : Type} (m : M α) : M Unit := do
  let _ ← m
  pure ()

/-- Run one public operation. -/
def exec (c : Consts) : Op → M Unit
  | .setOption o m r => setOption o m r
  | .enableNonBlocking r => enableNonBlocking r
  | .connect a r => connect a r
  | .connectNB a r => void (connectNB a r)
  | .close => close
  | .closeNB r => void (closeNB r)
  | .use n r => use n r
  | .useNB n r => void (useNB n r)
  | .query s r => query s r
  | .queryNB s r => void (queryNB s r)
  | .useResult r => useResult r
  | .storeResult r => storeResult r
  | .storeResultNB r => void (storeResultNB r)
  | .nextResult r => void (nextResult r)
  | .nextResultNB r => void (nextResultNB r)
  | .freeResult => freeResult
  | .freeResultNB r => void (freeResultNB r)
  | .fetchRow r => void (fetchRow r)
  | .fetchRowNB r => void (fetchRowNB r)
  | .seekRow row r => seekRow row r
  | .continueNB ready r => void (continueNB c ready r)

/-- The start entry points: every operation that begins a library operation,
blocking or not. -/
def Op.isStart : Op → Bool
  | .connect _ _ | .connectNB _ _ | .close | .closeNB _ | .use _ _ | .useNB _ _ => true
  | .query _ _ | .queryNB _ _ | .useResult _ | .storeResult _ | .storeResultNB _ => true
  | .nextResult _ | .nextResultNB _ | .freeResult | .freeResultNB _ => true
  | .fetchRow _ | .fetchRowNB _ => true
  | _ => false

/-- The non-blocking start entry points. -/
def Op.isStartNB : Op → Bool
  | .connectNB _ _ | .closeNB _ | .useNB _ _ | .queryNB _ _ | .storeResultNB _ => true
  | .nextResultNB _ | .freeResultNB _ | .fetchRowNB _ => true
  | _ => false

/-- The start entry points whose first statement is `assertConnected()`. -/
def Op.connectedFirst : Op → Bool
  | .close | .closeNB _ | .use _ _ | .useNB _ _ | .query _ _ | .queryNB _ _ => true
  | .useResult _ | .storeResult _ | .storeResultNB _ | .nextResult _ | .nextResultNB _ => true
  | _ => false

/-- The operations that acquire a Result. -/
def Op.acquires : Op → Bool
  | .useResult _ | .storeResult _ | .storeResultNB _ => true
  | _ => false

/-- The states a `DB` object can be in: constructed, then any sequence of
public operations, whether they return or throw. -/
inductive Reachable (c : Consts) : DB → Prop
  | init (db init : Option Handle) (res0 : Option MYSQL_RES) (d : DB) :
      (construct db init res0).1 = .ok d → Reachable c d
  | step (op : Op) (d : DB) : Reachable c d → Reachable c (exec c op d).st

/-! ## Named errors and sample data -/

/-- "Operation already pending": thrown by `assertNotPending`. -/
def errStillPending : Exn := .raiseError "Non-blocking call still pending"

/-- "No pending operation": thrown by `assertPending`. -/
def errNotPending : Exn := .THROW "Connect not pending"

/-- "Not connected": thrown by `assertConnected`. -/
def errNotConnected : Exn := .THROW "Not connected"

/-- "Not in non-blocking mode": thrown by `assertNonBlocking`. -/
def errNotNonBlocking : Exn := .raiseError "Connection is not in nonBlocking mode"

/-- "Result already held": thrown by `assertDontHaveResult`. -/
def errAlreadyHaveResult : Exn := .raiseError "Already have result, must call freeResult()"

/-- "No result held": thrown by `assertHaveResult`. -/
def errDontHaveResult : Exn :=
  .raiseError "Don't have result, must call query() and useResult() or storeResult()"

/-- "No current row": thrown by `assertHaveRow`. -/
def errDontHaveRow : Exn := .raiseError "Don't have row, must call fetchRow()"

/-- "Not buffered": thrown by `seekRow`. -/
def errNotBuffered : Exn := .THROW "Must use storeResult() before seekRow()"

/-- "Row out of range": thrown by `seekRow`. -/
def errRowRange (row : Nat) : Exn := .THROW ("Row seek out of range " ++ toString row)

/-- "Field index": thrown by `assertInFieldRange`. -/
def errFieldRange (i : Nat) : Exn := .THROW ("Out of field range " ++ toString i)

/-- Reply: finished, handle valid, `int` result 0, no result set. -/
def replyDone : LibReply := ⟨0, some 1, 0, none, none, ⟨0, 0, [], none, []⟩⟩

/-- Reply: the call would block and waits for the socket (status 2). -/
def replyPending : LibReply := ⟨2, none, 0, none, none, ⟨0, 0, [], none, []⟩⟩

/-- Reply: finished with a rejection: no handle, `int` result 1, no result set. -/
def replyRejected : LibReply := ⟨0, none, 1, none, none, ⟨0, 0, [], none, []⟩⟩

/-- The result set of `SELECT 1` before the first fetch: one row, one column. -/
def selectOne : MYSQL_RES := ⟨1, 1, [⟨.TYPE_OTHER 8⟩], none, []⟩

/-- The result set of `SELECT 1` with its row fetched. -/
def selectOneFetched : MYSQL_RES := ⟨1, 1, [⟨.TYPE_OTHER 8⟩], some [['1']], [1]⟩

/-- Reply: finished, the result set of `SELECT 1` is available. -/
def replyResult : LibReply := ⟨0, none, 0, some selectOne, some [['1']], selectOneFetched⟩

/-- Number routines over the naturals: every text parses to 0. -/
def sampleTime : TimeOps Nat := ⟨0, fun a b => a + b, fun _ => .ok 0, fun _ _ => .ok 0⟩

/-- One assignment of the header constants. -/
def sampleConsts : Consts := ⟨1, 2, 4, 1, 2, 8⟩

/-- Arguments of a connect call. -/
def sampleArgs : ConnectArgs := ⟨"localhost", "user", "secret", "test", 3306, "", 0⟩

/-- The object `DB(handle)` right after construction from the handle 1. -/
def fresh : DB := ⟨some 1, none, false, false, false, 0, none⟩

/-- `fresh`, then `enableNonBlocking()` with `mysql_options` returning 1. -/
def freshNB : DB := (exec sampleConsts (.enableNonBlocking replyRejected) fresh).st

/-- `freshNB`, then `connectNB(..)` which would block. -/
def pendingConnect : DB := (exec sampleConsts (.connectNB sampleArgs replyPending) freshNB).st

/-- `pendingConnect`, then `continueNB(READY_WRITE)` which finishes the connect. -/
def connectedNB : DB := (exec sampleConsts (.continueNB 2 replyDone) pendingConnect).st

/-- The result set of `SELECT 1` as `mysql_use_result` hands it out: one column,
no row read from the server yet. -/
def streamOne : MYSQL_RES := ⟨0, 1, [⟨.TYPE_OTHER 8⟩], none, []⟩

/-- Reply: finished, the unbuffered result set of `SELECT 1` is available. -/
def replyStream : LibReply := ⟨0, none, 0, some streamOne, none, streamOne⟩

/-- `connectedNB`, then `query("SELECT 1")` and `useResult()`: a Streaming result. -/
def streaming : DB :=
  (exec sampleConsts (.useResult replyStream)
    (exec sampleConsts (.query "SELECT 1" replyDone) connectedNB).st).st

/-- `connectedNB`, then `query("SELECT 1")` and `storeResult()`: a Buffered result. -/
def buffered : DB :=
  (exec sampleConsts (.storeResult replyResult)
    (exec sampleConsts (.query "SELECT 1" replyDone) connectedNB).st).st

/-- `buffered`, then `fetchRowNB()` which would block: a Result is held while an
operation is pending. -/
def bufferedPending : DB := (exec sampleConsts (.fetchRowNB replyPending) buffered).st

/-- `buffered`, then `fetchRow()`: the Result has a current row. -/
def bufferedRow : DB := (exec sampleConsts (.fetchRow replyResult) buffered).st

/-- `connectedNB`, then `queryNB("SELECT 1")` which would block. -/
def pendingQuery : DB := (exec sampleConsts (.queryNB "SELECT 1" replyPending) connectedNB).st

/-- The `SELECT 1` scenario on the non-blocking path: `connectedNB`, then
`queryNB("SELECT 1")` drained by one `continueNB`, then `storeResultNB()`
drained by one `continueNB`.  No row has been fetched yet. -/
def storedNB : DB :=
  (exec sampleConsts (.continueNB 1 replyResult)
    (exec sampleConsts (.storeResultNB replyPending)
      (exec sampleConsts (.continueNB 1 replyDone) pendingQuery).st).st).st

/-! ## Notions used in the statements -/

/-- Equality of outcomes of a call can be decided. -/
instance instDecidableEqExcept {ε α : Type} [DecidableEq ε] [DecidableEq α] :
    DecidableEq (Except ε α)
  | .ok a, .ok b =>
    if h : a = b then isTrue (by rw [h]) else isFalse (by intro h2; cases h2; exact h rfl)
  | .error a, .error b =>
    if h : a = b then isTrue (by rw [h]) else isFalse (by intro h2; cases h2; exact h rfl)
  | .ok _, .error _ => isFalse (by intro h; cases h)
  | .error _, .ok _ => isFalse (by intro h; cases h)

/-- The library finished the continuation step of the operation `k` with a
rejection: connect left no handle, select-database or query left a non-zero
code, store-result left no result, next-result left a positive code. -/
def rejected : continue_func_t → LibReply → Bool
  | .connectContinue, r => r.handle.isNone
  | .useContinue, r => r.ret != 0
  | .queryContinue, r => r.ret != 0
  | .storeResultContinue, r => r.res.isNone
  | .nextResultContinue, r => decide (0 < r.ret)
  | _, _ => false

/-- An operation is pending only on a non-blocking connection whose resume
routine is set. -/
def PendingInv (d : DB) : Prop :=
  d.status ≠ 0 → d.nonBlocking = true ∧ d.continueFunc ≠ none

/-- The readiness mask with the chosen conditions, as a `ready_t` value: the
bitwise OR of the constants of the conditions that are in it. -/
def readyMask (c : Consts) (rd wr tm : Bool) : Nat :=
  (if rd then c.READY_READ else 0) ||| (if wr then c.READY_WRITE else 0) |||
    (if tm then c.READY_TIMEOUT else 0)

/-- The header constants are flags: each of the three `READY_*` constants and
each of the three `MYSQL_WAIT_*` constants is non-zero, and within each family
no two share a bit. -/
def Consts.flags (c : Consts) : Bool :=
  c.READY_READ != 0 && c.READY_WRITE != 0 && c.READY_TIMEOUT != 0 &&
  c.READY_READ &&& c.READY_WRITE == 0 && c.READY_READ &&& c.READY_TIMEOUT == 0 &&
  c.READY_WRITE &&& c.READY_TIMEOUT == 0 &&
  c.MYSQL_WAIT_READ != 0 && c.MYSQL_WAIT_WRITE != 0 && c.MYSQL_WAIT_TIMEOUT != 0 &&
  c.MYSQL_WAIT_READ &&& c.MYSQL_WAIT_WRITE == 0 &&
  c.MYSQL_WAIT_READ &&& c.MYSQL_WAIT_TIMEOUT == 0 &&
  c.MYSQL_WAIT_WRITE &&& c.MYSQL_WAIT_TIMEOUT == 0

/-- The value of one binary digit character. -/
def bitValue (ch : Char) : Nat := if ch = '1' then 1 else 0

/-- The unsigned integer whose big-endian binary representation is the text
`s`: its first character is the most significant digit. -/
def binaryValue (s : List Char) : Nat := Nat.ofDigits 2 (s.reverse.map bitValue)

/-- The result set of a one-column query on a `BIT` column whose row, already
fetched, holds the text `101`. -/
def bitRes : MYSQL_RES := ⟨1, 1, [⟨.TYPE_BIT⟩], some [['1', '0', '1']], [3]⟩

/-- Reply: finished; a store-result call delivers the result set without a
current row, a fetch call leaves `bitRes`. -/
def replyBit : LibReply :=
  ⟨0, none, 0, some ⟨1, 1, [⟨.TYPE_BIT⟩], none, []⟩, some [['1', '0', '1']], bitRes⟩

/-- `connectedNB`, then `query`, `storeResult` and `fetchRow` on a `BIT` column. -/
def bitRow : DB :=
  (exec sampleConsts (.fetchRow replyBit)
    (exec sampleConsts (.storeResult replyBit)
      (exec sampleConsts (.query "SELECT b FROM t" replyDone) connectedNB).st).st).st

/-- The result set of a one-column query on a `SET` column whose row, already
fetched, holds the text `a,b`. -/
def setRes : MYSQL_RES := ⟨1, 1, [⟨.TYPE_SET⟩], some [['a', ',', 'b']], [3]⟩

/-- Reply: finished; a store-result call delivers the result set without a
current row, a fetch call leaves `setRes`. -/
def replySet : LibReply :=
  ⟨0, none, 0, some ⟨1, 1, [⟨.TYPE_SET⟩], none, []⟩, some [['a', ',', 'b']], setRes⟩

/-- `connectedNB`, then `query`, `storeResult` and `fetchRow` on a `SET` column. -/
def setRow : DB :=
  (exec sampleConsts (.fetchRow replySet)
    (exec sampleConsts (.storeResult replySet)
      (exec sampleConsts (.query "SELECT s FROM t" replyDone) connectedNB).st).st).st

/-- The operations that have a blocking and a non-blocking form, with their
inputs. -/
inductive Dual
  | connect (a : ConnectArgs)
  | close
  | use (dbName : String)
  | query (s : String)
  | storeResult
  | nextResult
  | freeResult
  | fetchRow
deriving DecidableEq, Repr

/-- The blocking form of the operation, the value it returns dropped. -/
def Dual.blocking : Dual → LibReply → M Unit
  | .connect a, r => MariaDB.connect a r
  | .close, _ => MariaDB.close
  | .use n, r => MariaDB.use n r
  | .query s, r => MariaDB.query s r
  | .storeResult, r => MariaDB.storeResult r
  | .nextResult, r => void (MariaDB.nextResult r)
  | .freeResult, _ => MariaDB.freeResult
  | .fetchRow, r => void (MariaDB.fetchRow r)

/-- The non-blocking start of the operation. -/
def Dual.startNB : Dual → LibReply → M Bool
  | .connect a, r => connectNB a r
  | .close, r => closeNB r
  | .use n, r => useNB n r
  | .query s, r => queryNB s r
  | .storeResult, r => storeResultNB r
  | .nextResult, r => nextResultNB r
  | .freeResult, r => freeResultNB r
  | .fetchRow, r => fetchRowNB r

/-- The continuation the non-blocking start binds. -/
def Dual.continuation : Dual → continue_func_t
  | .connect _ => .connectContinue
  | .close => .closeContinue
  | .use _ => .useContinue
  | .query _ => .queryContinue
  | .storeResult => .storeResultContinue
  | .nextResult => .nextResultContinue
  | .freeResult => .freeResultContinue
  | .fetchRow => .fetchRowContinue

/-- The guards of the operation other than "not pending" and "non-blocking
mode". -/
def Dual.guards : Dual → DB → Bool
  | .connect _, _ => true
  | .close, d => d.connected && d.res.isNone
  | .use _, d => d.connected
  | .query _, d => d.connected
  | .storeResult, d => d.connected && d.res.isNone
  | .nextResult, d => d.connected
  | .freeResult, d => d.res.isSome
  | .fetchRow, d => d.res.isSome

/-- The caller's loop over a pending operation: `continueNB` with the observed
readiness and the library's answer, one pair after the other, until it returns
`true`.  The result is `false` when the answers run out first. -/
def drain (c : Consts) : List (Nat × LibReply) → M Bool
  | [] => pure false
  | (ready, r) :: rest => do
    let done ← continueNB c ready r
    if done then pure true else drain c rest

/-- A non-blocking operation from start to completion: the start gets the first
answer of the library, `drain` the others.  The readiness paired with the
first answer is not used. -/
def runNB (c : Consts) (k : Dual) : List (Nat × LibReply) → M Bool
  | [] => pure false
  | (_, r) :: rest => do
    let done ← k.startNB r
    if done then pure true else drain c rest

/-- The state `dm` is one in which the operation with continuation `kc`, started
in `d0`, is pending: `connected` and `stored` are those of `d0`, and so is `res`
unless the library was handed `res` or its address. -/
def Mid (kc : continue_func_t) (d0 dm : DB) : Prop :=
  dm.nonBlocking = true ∧ dm.status ≠ 0 ∧ dm.continueFunc = some kc ∧
  dm.connected = d0.connected ∧ dm.stored = d0.stored ∧
  (match kc with
    | .storeResultContinue => True
    | .fetchRowContinue => dm.res.isSome = d0.res.isSome
    | _ => dm.res = d0.res)

/-- The non-blocking outcome `o` agrees with the blocking outcome `b`: one fails
iff the other does, and when `o` is a success it reports completion and leaves
the same `connected`, `res` and `stored` as `b`, with `status == 0`. -/
def Agree (o : Out Bool) (b : Out Unit) : Prop :=
  ((∃ e, o.ret = .error e) ↔ (∃ e, b.ret = .error e)) ∧
  (∀ v, o.ret = .ok v →
    v = true ∧ o.st.connected = b.st.connected ∧ o.st.res = b.st.res ∧
    o.st.stored = b.st.stored ∧ o.st.status = 0)

/-- The continuation a non-blocking start binds when it returns pending. -/
def Op.continuation : Op → Option continue_func_t
  | .connectNB _ _ => some .connectContinue
  | .closeNB _ => some .closeContinue
  | .useNB _ _ => some .useContinue
  | .queryNB _ _ => some .queryContinue
  | .storeResultNB _ => some .storeResultContinue
  | .nextResultNB _ => some .nextResultContinue
  | .freeResultNB _ => some .freeResultContinue
  | .fetchRowNB _ => some .fetchRowContinue
  | _ => none

/-- The operation is a non-blocking start that, called in `d`, returns `false`:
the operation is pending. -/
def Op.returnedPending (op : Op) (d : DB) : Bool :=
  match op with
  | .connectNB a r => decide ((MariaDB.connectNB a r d).ret = .ok false)
  | .closeNB r => decide ((MariaDB.closeNB r d).ret = .ok false)
  | .useNB n r => decide ((MariaDB.useNB n r d).ret = .ok false)
  | .queryNB s r => decide ((MariaDB.queryNB s r d).ret = .ok false)
  | .storeResultNB r => decide ((MariaDB.storeResultNB r d).ret = .ok false)
  | .nextResultNB r => decide ((MariaDB.nextResultNB r d).ret = .ok false)
  | .freeResultNB r => decide ((MariaDB.freeResultNB r d).ret = .ok false)
  | .fetchRowNB r => decide ((MariaDB.fetchRowNB r d).ret = .ok false)
  | _ => false

/-- The reachable states, each with the continuation of the operation whose
start most recently returned pending (`none` before the first such start). -/
inductive Traced (c : Consts) : DB → Option continue_func_t → Prop
  | init (db init : Option Handle) (res0 : Option MYSQL_RES) (d : DB) :
      (construct db init res0).1 = .ok d → Traced c d none
  | step (op : Op) (d : DB) (g : Option continue_func_t) :
      Traced c d g →
      Traced c (exec c op d).st (if op.returnedPending d = true then op.continuation else g)

@[simp]
theorem M.pure_apply {α : Type} (a : α) (d : DB) : (pure a : M α) d = ⟨.ok a, d, []⟩ := rfl

@[simp]
theorem M.bind_apply {α β : Type} (m : M α) (f : α → M β) (d : DB) :
    (m >>= f) d = M.bind m f d := rfl

@[simp]
theorem M.ite_apply {α : Type} (p : Prop) [Decidable p] (a b : M α) (d : DB) :
    (if p then a else b) d = if p then a d else b d := by
  split <;> rfl

@[simp]
theorem Out.after_mk {α : Type} (cs cs2 : List LibCall) (x : Except Exn α) (d : DB) :
    Out.after cs ⟨x, d, cs2⟩ = ⟨x, d, cs ++ cs2⟩ := rfl

@[simp]
theorem Out.after_ite {α : Type} (p : Prop) [Decidable p] (cs : List LibCall) (a b : Out α) :
    Out.after cs (if p then a else b) = if p then Out.after cs a else Out.after cs b := by
  split <;> rfl

@[simp]
theorem throwExn_apply {α : Type} (e : Exn) (d : DB) :
    (throwExn e : M α) d = ⟨.error e, d, []⟩ := rfl

@[simp]
theorem THROW_apply {α : Type} (msg : String) (d : DB) :
    (THROW msg : M α) d = ⟨.error (.THROW msg), d, []⟩ := rfl

@[simp]
theorem raiseError_apply {α : Type} (msg : String) (d : DB) :
    (raiseError msg : M α) d = ⟨.error (.raiseError msg), d, []⟩ := rfl

@[simp]
theorem getDB_apply (d : DB) : getDB d = ⟨.ok d, d, []⟩ := rfl

@[simp]
theorem modifyDB_apply (f : DB → DB) (d : DB) : modifyDB f d = ⟨.ok (), f d, []⟩ := rfl

@[simp]
theorem lib_apply (c : LibCall) (d : DB) : lib c d = ⟨.ok (), d, [c]⟩ := rfl

@[simp]
theorem touchRes_apply (obj : MYSQL_RES) (d : DB) :
    touchRes obj d = ⟨.ok (), { d with res := d.res.map fun _ => obj }, []⟩ := rfl

theorem assertConnected_eq (d : DB) :
    assertConnected d =
      if d.connected = true then ⟨.ok (), d, []⟩ else ⟨.error errNotConnected, d, []⟩ := by
  cases h : d.connected <;> simp [assertConnected, M.bind, h, errNotConnected]

theorem assertPending_eq (d : DB) :
    assertPending d =
      if d.nonBlocking = true ∧ d.status ≠ 0 then ⟨.ok (), d, []⟩
      else ⟨.error errNotPending, d, []⟩ := by
  cases h : d.nonBlocking <;> by_cases hs : d.status = 0 <;>
    simp [assertPending, M.bind, h, hs, errNotPending]

theorem assertNotPending_eq (d : DB) :
    assertNotPending d =
      if d.status = 0 then ⟨.ok (), d, []⟩ else ⟨.error errStillPending, d, []⟩ := by
  by_cases hs : d.status = 0 <;> simp [assertNotPending, M.bind, hs, errStillPending]

theorem assertNonBlocking_eq (d : DB) :
    assertNonBlocking d =
      if d.nonBlocking = true then ⟨.ok (), d, []⟩
      else ⟨.error errNotNonBlocking, d, []⟩ := by
  cases h : d.nonBlocking <;> simp [assertNonBlocking, M.bind, h, errNotNonBlocking]

theorem assertHaveResult_eq (d : DB) :
    assertHaveResult d =
      if d.res.isSome = true then ⟨.ok (), d, []⟩
      else ⟨.error errDontHaveResult, d, []⟩ := by
  cases h : d.res <;> simp [assertHaveResult, haveResult, M.bind, h, errDontHaveResult]

theorem assertDontHaveResult_eq (d : DB) :
    assertDontHaveResult d =
      if d.res.isSome = true then ⟨.error errAlreadyHaveResult, d, []⟩
      else ⟨.ok (), d, []⟩ := by
  cases h : d.res <;> simp [assertDontHaveResult, haveResult, M.bind, h, errAlreadyHaveResult]

theorem assertHaveRow_eq (d : DB) :
    assertHaveRow d =
      if haveRow d = true then ⟨.ok (), d, []⟩ else ⟨.error errDontHaveRow, d, []⟩ := by
  cases h : haveRow d <;> simp [assertHaveRow, M.bind, h, errDontHaveRow]

/-! ## What each operation does, guard by guard -/

theorem enableNonBlocking_eq (r : LibReply) (d : DB) :
    enableNonBlocking r d =
      if r.ret = 0 then
        ⟨.error (.THROW "Failed to set MariaDB to non-blocking mode"), d,
          [.mysql_options "MYSQL_OPT_NONBLOCK"]⟩
      else ⟨.ok (), { d with nonBlocking := true }, [.mysql_options "MYSQL_OPT_NONBLOCK"]⟩ := by
  by_cases h : r.ret = 0 <;> simp [enableNonBlocking, M.bind, h]

theorem setOption_eq (o m : String) (r : LibReply) (d : DB) :
    setOption o m r d =
      if r.ret = 0 then ⟨.error (.THROW m), d, [.mysql_options o]⟩
      else ⟨.ok (), d, [.mysql_options o]⟩ := by
  by_cases h : r.ret = 0 <;> simp [setOption, M.bind, h]

theorem connect_eq (a : ConnectArgs) (r : LibReply) (d : DB) :
    connect a r d =
      if d.status ≠ 0 then ⟨.error errStillPending, d, []⟩
      else if r.handle = none then
        ⟨.error (.raiseError "Failed to connect"), d, [.mysql_real_connect a]⟩
      else ⟨.ok (), { d with connected := true }, [.mysql_real_connect a]⟩ := by
  by_cases hs : d.status = 0 <;> cases hh : r.handle <;>
    simp [connect, assertNotPending_eq, M.bind, hs, hh]

theorem connectNB_eq (a : ConnectArgs) (r : LibReply) (d : DB) :
    connectNB a r d =
      if d.status ≠ 0 then ⟨.error errStillPending, d, []⟩
      else if d.nonBlocking = false then ⟨.error errNotNonBlocking, d, []⟩
      else if r.status ≠ 0 then
        ⟨.ok false, { d with status := r.status, continueFunc := some .connectContinue },
          [.mysql_real_connect_start a]⟩
      else if r.handle = none then
        ⟨.error (.raiseError "Failed to connect"), { d with status := 0 },
          [.mysql_real_connect_start a]⟩
      else
        ⟨.ok true, { d with status := 0, connected := true },
          [.mysql_real_connect_start a]⟩ := by
  by_cases hs : d.status = 0 <;> cases hn : d.nonBlocking <;> by_cases hr : r.status = 0 <;>
    cases hh : r.handle <;>
    simp [connectNB, assertNotPending_eq, assertNonBlocking_eq, M.bind, hs, hn, hr, hh]

theorem close_eq (d : DB) :
    close d =
      if d.connected = false then ⟨.error errNotConnected, d, []⟩
      else if d.status ≠ 0 then ⟨.error errStillPending, d, []⟩
      else if d.res.isSome = true then ⟨.error errAlreadyHaveResult, d, []⟩
      else ⟨.ok (), { d with connected := false }, [.mysql_close]⟩ := by
  cases hc : d.connected <;> by_cases hs : d.status = 0 <;> cases hres : d.res <;>
    simp [close, assertConnected_eq, assertNotPending_eq, assertDontHaveResult_eq, M.bind,
      hc, hs, hres]

theorem closeNB_eq (r : LibReply) (d : DB) :
    closeNB r d =
      if d.connected = false then ⟨.error errNotConnected, d, []⟩
      else if d.status ≠ 0 then ⟨.error errStillPending, d, []⟩
      else if d.nonBlocking = false then ⟨.error errNotNonBlocking, d, []⟩
      else if d.res.isSome = true then ⟨.error errAlreadyHaveResult, d, []⟩
      else if r.status ≠ 0 then
        ⟨.ok false, { d with status := r.status, continueFunc := some .closeContinue },
          [.mysql_close_start]⟩
      else ⟨.ok true, { d with status := 0, connected := false }, [.mysql_close_start]⟩ := by
  cases hc : d.connected <;> by_cases hs : d.status = 0 <;> cases hn : d.nonBlocking <;>
    cases hres : d.res <;> by_cases hr : r.status = 0 <;>
    simp [closeNB, assertConnected_eq, assertNotPending_eq, assertNonBlocking_eq,
      assertDontHaveResult_eq, M.bind, hc, hs, hn, hres, hr]

theorem use_eq (n : String) (r : LibReply) (d : DB) :
    use n r d =
      if d.connected = false then ⟨.error errNotConnected, d, []⟩
      else if d.status ≠ 0 then ⟨.error errStillPending, d, []⟩
      else if r.ret ≠ 0 then
        ⟨.error (.raiseError "Failed to select DB"), d, [.mysql_select_db n]⟩
      else ⟨.ok (), d, [.mysql_select_db n]⟩ := by
  cases hc : d.connected <;> by_cases hs : d.status = 0 <;> by_cases hq : r.ret = 0 <;>
    simp [use, assertConnected_eq, assertNotPending_eq, M.bind, hc, hs, hq]

theorem useNB_eq (n : String) (r : LibReply) (d : DB) :
    useNB n r d =
      if d.connected = false then ⟨.error errNotConnected, d, []⟩
      else if d.status ≠ 0 then ⟨.error errStillPending, d, []⟩
      else if d.nonBlocking = false then ⟨.error errNotNonBlocking, d, []⟩
      else if r.status ≠ 0 then
        ⟨.ok false, { d with status := r.status, continueFunc := some .useContinue },
          [.mysql_select_db_start n]⟩
      else if r.ret ≠ 0 then
        ⟨.error (.raiseError "Failed to select DB"), { d with status := 0 },
          [.mysql_select_db_start n]⟩
      else ⟨.ok true, { d with status := 0 }, [.mysql_select_db_start n]⟩ := by
  cases hc : d.connected <;> by_cases hs : d.status = 0 <;> cases hn : d.nonBlocking <;>
    by_cases hr : r.status = 0 <;> by_cases hq : r.ret = 0 <;>
    simp [useNB, assertConnected_eq, assertNotPending_eq, assertNonBlocking_eq, M.bind,
      hc, hs, hn, hr, hq]

theorem query_eq (s : String) (r : LibReply) (d : DB) :
    query s r d =
      if d.connected = false then ⟨.error errNotConnected, d, []⟩
      else if d.status ≠ 0 then ⟨.error errStillPending, d, []⟩
      else if r.ret ≠ 0 then ⟨.error (.raiseError "Query failed"), d, [.mysql_real_query s]⟩
      else ⟨.ok (), d, [.mysql_real_query s]⟩ := by
  cases hc : d.connected <;> by_cases hs : d.status = 0 <;> by_cases hq : r.ret = 0 <;>
    simp [query, assertConnected_eq, assertNotPending_eq, M.bind, hc, hs, hq]

theorem queryNB_eq (s : String) (r : LibReply) (d : DB) :
    queryNB s r d =
      if d.connected = false then ⟨.error errNotConnected, d, []⟩
      else if d.status ≠ 0 then ⟨.error errStillPending, d, []⟩
      else if d.nonBlocking = false then ⟨.error errNotNonBlocking, d, []⟩
      else if r.status ≠ 0 then
        ⟨.ok false, { d with status := r.status, continueFunc := some .queryContinue },
          [.mysql_real_query_start s]⟩
      else if r.ret ≠ 0 then
        ⟨.error (.raiseError "Query failed"), { d with status := 0 },
          [.mysql_real_query_start s]⟩
      else ⟨.ok true, { d with status := 0 }, [.mysql_real_query_start s]⟩ := by
  cases hc : d.connected <;> by_cases hs : d.status = 0 <;> cases hn : d.nonBlocking <;>
    by_cases hr : r.status = 0 <;> by_cases hq : r.ret = 0 <;>
    simp [queryNB, assertConnected_eq, assertNotPending_eq, assertNonBlocking_eq, M.bind,
      hc, hs, hn, hr, hq]

theorem useResult_eq (r : LibReply) (d : DB) :
    useResult r d =
      if d.connected = false then ⟨.error errNotConnected, d, []⟩
      else if d.status ≠ 0 then ⟨.error errStillPending, d, []⟩
      else if d.res.isSome = true then ⟨.error errAlreadyHaveResult, d, []⟩
      else if r.res = none then
        ⟨.error (.THROW "Failed to use result"), { d with res := none }, [.mysql_use_result]⟩
      else ⟨.ok (), { d with res := r.res, stored := false }, [.mysql_use_result]⟩ := by
  cases hc : d.connected <;> by_cases hs : d.status = 0 <;> cases hres : d.res <;>
    cases hq : r.res <;>
    simp [useResult, assertConnected_eq, assertNotPending_eq, assertDontHaveResult_eq, M.bind,
      hc, hs, hres, hq]

theorem storeResult_eq (r : LibReply) (d : DB) :
    storeResult r d =
      if d.connected = false then ⟨.error errNotConnected, d, []⟩
      else if d.status ≠ 0 then ⟨.error errStillPending, d, []⟩
      else if d.res.isSome = true then ⟨.error errAlreadyHaveResult, d, []⟩
      else if r.res = none then
        ⟨.error (.raiseError "Failed to store result"), { d with res := none },
          [.mysql_store_result]⟩
      else ⟨.ok (), { d with res := r.res, stored := true }, [.mysql_store_result]⟩ := by
  cases hc : d.connected <;> by_cases hs : d.status = 0 <;> cases hres : d.res <;>
    cases hq : r.res <;>
    simp [storeResult, assertConnected_eq, assertNotPending_eq, assertDontHaveResult_eq, M.bind,
      hc, hs, hres, hq]

theorem storeResultNB_eq (r : LibReply) (d : DB) :
    storeResultNB r d =
      if d.connected = false then ⟨.error errNotConnected, d, []⟩
      else if d.status ≠ 0 then ⟨.error errStillPending, d, []⟩
      else if d.nonBlocking = false then ⟨.error errNotNonBlocking, d, []⟩
      else if d.res.isSome = true then ⟨.error errAlreadyHaveResult, d, []⟩
      else if r.status ≠ 0 then
        ⟨.ok false,
          { d with status := r.status, res := r.res, continueFunc := some .storeResultContinue },
          [.mysql_store_result_start]⟩
      else if r.res = none then
        ⟨.error (.raiseError "Failed to store result"), { d with status := 0, res := none },
          [.mysql_store_result_start]⟩
      else
        ⟨.ok true, { d with status := 0, res := r.res, stored := true },
          [.mysql_store_result_start]⟩ := by
  cases hc : d.connected <;> by_cases hs : d.status = 0 <;> cases hn : d.nonBlocking <;>
    cases hres : d.res <;> by_cases hr : r.status = 0 <;> cases hq : r.res <;>
    simp [storeResultNB, assertConnected_eq, assertNotPending_eq, assertNonBlocking_eq,
      assertDontHaveResult_eq, M.bind, hc, hs, hn, hres, hr, hq]

theorem nextResult_eq (r : LibReply) (d : DB) :
    nextResult r d =
      if d.connected = false then ⟨.error errNotConnected, d, []⟩
      else if d.status ≠ 0 then ⟨.error errStillPending, d, []⟩
      else if 0 < r.ret then
        ⟨.error (.raiseError "Failed get next result"), d, [.mysql_next_result]⟩
      else ⟨.ok (r.ret == 0), d, [.mysql_next_result]⟩ := by
  cases hc : d.connected <;> by_cases hs : d.status = 0 <;> by_cases hq : 0 < r.ret <;>
    simp [nextResult, assertConnected_eq, assertNotPending_eq, M.bind, hc, hs, hq]

theorem nextResultNB_eq (r : LibReply) (d : DB) :
    nextResultNB r d =
      if d.connected = false then ⟨.error errNotConnected, d, []⟩
      else if d.status ≠ 0 then ⟨.error errStillPending, d, []⟩
      else if d.nonBlocking = false then ⟨.error errNotNonBlocking, d, []⟩
      else if r.status ≠ 0 then
        ⟨.ok false, { d with status := r.status, continueFunc := some .nextResultContinue },
          [.mysql_next_result_start]⟩
      else if 0 < r.ret then
        ⟨.error (.raiseError "Failed get next result"), { d with status := 0 },
          [.mysql_next_result_start]⟩
      else ⟨.ok true, { d with status := 0 }, [.mysql_next_result_start]⟩ := by
  cases hc : d.connected <;> by_cases hs : d.status = 0 <;> cases hn : d.nonBlocking <;>
    by_cases hr : r.status = 0 <;> by_cases hq : 0 < r.ret <;>
    simp [nextResultNB, assertConnected_eq, assertNotPending_eq, assertNonBlocking_eq, M.bind,
      hc, hs, hn, hr, hq]

theorem freeResult_eq (d : DB) :
    freeResult d =
      if d.status ≠ 0 then ⟨.error errStillPending, d, []⟩
      else if d.res.isSome = false then ⟨.error errDontHaveResult, d, []⟩
      else ⟨.ok (), { d with res := none }, [.mysql_free_result]⟩ := by
  by_cases hs : d.status = 0 <;> cases hres : d.res <;>
    simp [freeResult, assertNotPending_eq, assertHaveResult_eq, M.bind, hs, hres]

theorem freeResultNB_eq (r : LibReply) (d : DB) :
    freeResultNB r d =
      if d.status ≠ 0 then ⟨.error errStillPending, d, []⟩
      else if d.nonBlocking = false then ⟨.error errNotNonBlocking, d, []⟩
      else if d.res.isSome = false then ⟨.error errDontHaveResult, d, []⟩
      else if r.status ≠ 0 then
        ⟨.ok false, { d with status := r.status, continueFunc := some .freeResultContinue },
          [.mysql_free_result_start]⟩
      else ⟨.ok true, { d with status := 0, res := none }, [.mysql_free_result_start]⟩ := by
  by_cases hs : d.status = 0 <;> cases hn : d.nonBlocking <;> cases hres : d.res <;>
    by_cases hr : r.status = 0 <;>
    simp [freeResultNB, assertNotPending_eq, assertNonBlocking_eq, assertHaveResult_eq, M.bind,
      hs, hn, hres, hr]

theorem fetchRow_eq (r : LibReply) (d : DB) :
    fetchRow r d =
      if d.status ≠ 0 then ⟨.error errStillPending, d, []⟩
      else if d.res.isSome = false then ⟨.error errDontHaveResult, d, []⟩
      else ⟨.ok r.row.isSome, { d with res := some r.obj }, [.mysql_fetch_row]⟩ := by
  by_cases hs : d.status = 0 <;> cases hres : d.res <;>
    simp [fetchRow, assertNotPending_eq, assertHaveResult_eq, M.bind, hs, hres]

theorem fetchRowNB_eq (r : LibReply) (d : DB) :
    fetchRowNB r d =
      if d.status ≠ 0 then ⟨.error errStillPending, d, []⟩
      else if d.nonBlocking = false then ⟨.error errNotNonBlocking, d, []⟩
      else if d.res.isSome = false then ⟨.error errDontHaveResult, d, []⟩
      else if r.status ≠ 0 then
        ⟨.ok false,
          { d with status := r.status, res := some r.obj,
                   continueFunc := some .fetchRowContinue },
          [.mysql_fetch_row_start]⟩
      else ⟨.ok true, { d with status := 0, res := some r.obj }, [.mysql_fetch_row_start]⟩ := by
  by_cases hs : d.status = 0 <;> cases hn : d.nonBlocking <;> cases hres : d.res <;>
    by_cases hr : r.status = 0 <;>
    simp [fetchRowNB, assertNotPending_eq, assertNonBlocking_eq, assertHaveResult_eq, M.bind,
      hs, hn, hres, hr]

theorem seekRow_eq (row : Nat) (r : LibReply) (d : DB) :
    seekRow row r d =
      match d.res with
      | none => ⟨.error errDontHaveResult, d, []⟩
      | some x =>
        if d.stored = false then ⟨.error errNotBuffered, d, []⟩
        else if x.row_count ≤ row then ⟨.error (errRowRange row), d, []⟩
        else ⟨.ok (), { d with res := some r.obj }, [.mysql_data_seek row]⟩ := by
  cases hres : d.res with
  | none => simp [seekRow, assertHaveResult_eq, M.bind, hres]
  | some x =>
    cases hst : d.stored <;> by_cases hn : x.row_count ≤ row <;>
      simp [seekRow, derefRes, assertHaveResult_eq, M.bind, hres, hst, hn, errNotBuffered,
        errRowRange]

theorem getRowCount_eq (d : DB) :
    getRowCount d =
      match d.res with
      | none => ⟨.error errDontHaveResult, d, []⟩
      | some x => ⟨.ok x.row_count, d, []⟩ := by
  cases hres : d.res <;> simp [getRowCount, derefRes, assertHaveResult_eq, M.bind, hres]

theorem getFieldCount_eq (d : DB) :
    getFieldCount d =
      match d.res with
      | none => ⟨.error errDontHaveRow, d, []⟩
      | some x =>
        if x.current_row.isSome = true then ⟨.ok x.field_count, d, []⟩
        else ⟨.error errDontHaveRow, d, []⟩ := by
  cases hres : d.res with
  | none => simp [getFieldCount, derefRes, assertHaveRow_eq, haveRow, M.bind, hres]
  | some x =>
    cases hrow : x.current_row <;>
      simp [getFieldCount, derefRes, assertHaveRow_eq, haveRow, M.bind, hres, hrow]

theorem assertInFieldRange_eq (i : Nat) (d : DB) :
    assertInFieldRange i d =
      match d.res with
      | none => ⟨.error errDontHaveRow, d, []⟩
      | some x =>
        if x.current_row.isSome = false then ⟨.error errDontHaveRow, d, []⟩
        else if x.field_count = 0 then ⟨.error (errFieldRange i), d, []⟩
        else ⟨.ok (), d, []⟩ := by
  cases hres : d.res with
  | none => simp [assertInFieldRange, getFieldCount_eq, M.bind, hres]
  | some x =>
    cases hrow : x.current_row <;> by_cases hn : x.field_count = 0 <;>
      simp [assertInFieldRange, getFieldCount_eq, M.bind, hres, hrow, hn, errFieldRange]

@[simp]
theorem Out.after_nil {α : Type} (o : Out α) : Out.after [] o = o := by
  rcases o with ⟨x, d, cs⟩
  rfl

theorem closeContinue_eq (c : Consts) (ready : Nat) (r : LibReply) (d : DB) :
    closeContinue c ready r d =
      if r.status ≠ 0 then
        ⟨.ok false, { d with status := r.status }, [.mysql_close_cont (ready_to_mysql c ready)]⟩
      else
        ⟨.ok true, { d with status := 0, connected := false },
          [.mysql_close_cont (ready_to_mysql c ready)]⟩ := by
  by_cases hr : r.status = 0 <;> simp [closeContinue, M.bind, hr]

theorem connectContinue_eq (c : Consts) (ready : Nat) (r : LibReply) (d : DB) :
    connectContinue c ready r d =
      if r.status ≠ 0 then
        ⟨.ok false, { d with status := r.status },
          [.mysql_real_connect_cont (ready_to_mysql c ready)]⟩
      else if r.handle = none then
        ⟨.error (.THROW "Failed to connect"), { d with status := 0 },
          [.mysql_real_connect_cont (ready_to_mysql c ready)]⟩
      else
        ⟨.ok true, { d with status := 0, connected := true },
          [.mysql_real_connect_cont (ready_to_mysql c ready)]⟩ := by
  by_cases hr : r.status = 0 <;> cases hh : r.handle <;>
    simp [connectContinue, M.bind, hr, hh]

theorem useContinue_eq (c : Consts) (ready : Nat) (r : LibReply) (d : DB) :
    useContinue c ready r d =
      if r.status ≠ 0 then
        ⟨.ok false, { d with status := r.status },
          [.mysql_select_db_cont (ready_to_mysql c ready)]⟩
      else if r.ret ≠ 0 then
        ⟨.error (.THROW "Failed to select DB"), { d with status := 0 },
          [.mysql_select_db_cont (ready_to_mysql c ready)]⟩
      else
        ⟨.ok true, { d with status := 0 },
          [.mysql_select_db_cont (ready_to_mysql c ready)]⟩ := by
  by_cases hr : r.status = 0 <;> by_cases hq : r.ret = 0 <;>
    simp [useContinue, M.bind, hr, hq]

theorem queryContinue_eq (c : Consts) (ready : Nat) (r : LibReply) (d : DB) :
    queryContinue c ready r d =
      if r.status ≠ 0 then
        ⟨.ok false, { d with status := r.status },
          [.mysql_real_query_cont (ready_to_mysql c ready)]⟩
      else if r.ret ≠ 0 then
        ⟨.error (.THROW "Query failed"), { d with status := 0 },
          [.mysql_real_query_cont (ready_to_mysql c ready)]⟩
      else
        ⟨.ok true, { d with status := 0 },
          [.mysql_real_query_cont (ready_to_mysql c ready)]⟩ := by
  by_cases hr : r.status = 0 <;> by_cases hq : r.ret = 0 <;>
    simp [queryContinue, M.bind, hr, hq]

theorem storeResultContinue_eq (c : Consts) (ready : Nat) (r : LibReply) (d : DB) :
    storeResultContinue c ready r d =
      if r.status ≠ 0 then
        ⟨.ok false, { d with status := r.status, res := r.res },
          [.mysql_store_result_cont (ready_to_mysql c ready)]⟩
      else if r.res = none then
        ⟨.error (.THROW "Failed to store result"), { d with status := 0, res := none },
          [.mysql_store_result_cont (ready_to_mysql c ready)]⟩
      else
        ⟨.ok true, { d with status := 0, res := r.res, stored := true },
          [.mysql_store_result_cont (ready_to_mysql c ready)]⟩ := by
  by_cases hr : r.status = 0 <;> cases hq : r.res <;>
    simp [storeResultContinue, M.bind, hr, hq]

theorem nextResultContinue_eq (c : Consts) (ready : Nat) (r : LibReply) (d : DB) :
    nextResultContinue c ready r d =
      if r.status ≠ 0 then
        ⟨.ok false, { d with status := r.status },
          [.mysql_next_result_cont (ready_to_mysql c ready)]⟩
      else if 0 < r.ret then
        ⟨.error (.THROW "Failed to get next result"), { d with status := 0 },
          [.mysql_next_result_cont (ready_to_mysql c ready)]⟩
      else
        ⟨.ok true, { d with status := 0 },
          [.mysql_next_result_cont (ready_to_mysql c ready)]⟩ := by
  by_cases hr : r.status = 0 <;> by_cases hq : 0 < r.ret <;>
    simp [nextResultContinue, M.bind, hr, hq]

theorem freeResultContinue_eq (c : Consts) (ready : Nat) (r : LibReply) (d : DB) :
    freeResultContinue c ready r d =
      if r.status ≠ 0 then
        ⟨.ok false, { d with status := r.status },
          [.mysql_free_result_cont (ready_to_mysql c ready)]⟩
      else
        ⟨.ok true, { d with status := 0, res := none },
          [.mysql_free_result_cont (ready_to_mysql c ready)]⟩ := by
  by_cases hr : r.status = 0 <;> simp [freeResultContinue, M.bind, hr]

theorem fetchRowContinue_eq (c : Consts) (ready : Nat) (r : LibReply) (d : DB) :
    fetchRowContinue c ready r d =
      ⟨.ok (r.status == 0), { d with status := r.status, res := d.res.map fun _ => r.obj },
        [.mysql_fetch_row_cont (ready_to_mysql c ready)]⟩ := by
  simp [fetchRowContinue, M.bind]

theorem continueNB_eq (c : Consts) (ready : Nat) (r : LibReply) (d : DB) :
    continueNB c ready r d =
      if d.nonBlocking = false ∨ d.status = 0 then ⟨.error errNotPending, d, []⟩
      else
        match d.continueFunc with
        | none => ⟨.error (.THROW "Continue function not set"), d, []⟩
        | some f => callContinue f c ready r d := by
  cases hn : d.nonBlocking <;> by_cases hs : d.status = 0 <;> cases hf : d.continueFunc <;>
    simp [continueNB, assertPending_eq, M.bind, hn, hs, hf]

theorem void_st {α : Type} (m : M α) (d : DB) : (void m d).st = (m d).st := by
  rcases h : m d with ⟨x, d2, cs⟩
  cases x <;> simp [void, M.bind, h]

theorem void_calls {α : Type} (m : M α) (d : DB) : (void m d).calls = (m d).calls := by
  rcases h : m d with ⟨x, d2, cs⟩
  cases x <;> simp [void, M.bind, h]

theorem void_ret {α : Type} (m : M α) (d : DB) :
    (void m d).ret = (m d).ret.map fun _ => () := by
  rcases h : m d with ⟨x, d2, cs⟩
  cases x <;> simp [void, M.bind, h, Except.map]

theorem void_error {α : Type} (m : M α) (d d2 : DB) (e : Exn) (cs : List LibCall)
    (h : m d = ⟨.error e, d2, cs⟩) : void m d = ⟨.error e, d2, cs⟩ := by
  simp [void, M.bind, h]

/-! ## C1: a start while an operation is pending -/

/-- C1, as amended: every start entry point called while an operation is pending
(`status != 0`) fails, makes no library call and leaves every member unchanged.
The error is the operation-already-pending one, except that the entry points
which test the connection first (`close`, `use`, `query`, `useResult`,
`storeResult`, `nextResult` and their non-blocking forms) fail with the
not-connected error when `connected == false`. -/
theorem start_while_pending_fails (c : Consts) (op : Op) (d : DB)
    (hop : op.isStart = true) (hp : d.status ≠ 0) :
    exec c op d =
      ⟨.error (if op.connectedFirst = true ∧ d.connected = false then errNotConnected
        else errStillPending), d, []⟩ := by
  cases hc : d.connected <;> cases op <;> simp [Op.isStart] at hop <;>
    simp [exec, void, M.bind, Op.connectedFirst, connect_eq, connectNB_eq, close_eq, closeNB_eq,
      use_eq, useNB_eq, query_eq, queryNB_eq, useResult_eq, storeResult_eq, storeResultNB_eq,
      nextResult_eq, nextResultNB_eq, freeResult_eq, freeResultNB_eq, fetchRow_eq,
      fetchRowNB_eq, hc, hp]

/-- Witness for C1: `connectNB` while the first `connectNB` is still pending. -/
theorem start_while_pending_fails_witness :
    (Op.connectNB sampleArgs replyDone).isStart = true ∧ pendingConnect.status ≠ 0 ∧
    exec sampleConsts (.connectNB sampleArgs replyDone) pendingConnect =
      ⟨.error (if (Op.connectNB sampleArgs replyDone).connectedFirst = true ∧
          pendingConnect.connected = false then errNotConnected else errStillPending),
        pendingConnect, []⟩ :=
  ⟨rfl, by decide,
    start_while_pending_fails sampleConsts (.connectNB sampleArgs replyDone) pendingConnect rfl
      (by decide)⟩

/-- C1 as stated fails: while `connectNB` is pending the connection is not yet
connected, and `queryNB` then fails with the not-connected error, not with the
operation-already-pending error. -/
theorem start_while_pending_counterexample :
    Reachable sampleConsts pendingConnect ∧ pendingConnect.status ≠ 0 ∧
    (Op.queryNB "SELECT 1" replyDone).isStart = true ∧
    (exec sampleConsts (.queryNB "SELECT 1" replyDone) pendingConnect).ret =
      .error errNotConnected ∧
    (exec sampleConsts (.queryNB "SELECT 1" replyDone) pendingConnect).ret ≠
      .error errStillPending :=
  ⟨.step _ _ (.step _ _ (.init (some 1) none none fresh rfl)), by decide, rfl, by decide,
    by decide⟩

/-! ## C2: continue on an Idle connection -/

/-- C2: for every readiness mask, `continueNB` on an Idle connection
(`status == 0`) fails with the no-pending-operation error, runs no continuation
routine (no library call is made) and leaves every member unchanged. -/
theorem continueNB_idle_fails (c : Consts) (ready : Nat) (r : LibReply) (d : DB)
    (h : d.status = 0) :
    continueNB c ready r d = ⟨.error errNotPending, d, []⟩ := by
  simp [continueNB_eq, h]

/-- Witness for C2: `continueNB` on the connection that has finished connecting. -/
theorem continueNB_idle_fails_witness :
    connectedNB.status = 0 ∧
    continueNB sampleConsts 1 replyDone connectedNB = ⟨.error errNotPending, connectedNB, []⟩ :=
  ⟨by decide, continueNB_idle_fails sampleConsts 1 replyDone connectedNB (by decide)⟩

/-! ## C3: a rejected continuation leaves the connection Idle -/

theorem callContinue_eq (k : continue_func_t) (c : Consts) (ready : Nat) (r : LibReply)
    (d : DB) :
    callContinue k c ready r d =
      match k with
      | .closeContinue => closeContinue c ready r d
      | .connectContinue => connectContinue c ready r d
      | .useContinue => useContinue c ready r d
      | .queryContinue => queryContinue c ready r d
      | .storeResultContinue => storeResultContinue c ready r d
      | .nextResultContinue => nextResultContinue c ready r d
      | .freeResultContinue => freeResultContinue c ready r d
      | .fetchRowContinue => fetchRowContinue c ready r d := by
  cases k <;> rfl

/-- On an Idle connection no operation fails with the operation-already-pending
error. -/
theorem idle_not_rejected_as_pending (c : Consts) (op : Op) (d : DB) (h : d.status = 0) :
    (exec c op d).ret ≠ .error errStillPending := by
  cases op <;>
    simp only [exec, void_ret, connect_eq, connectNB_eq, close_eq, closeNB_eq,
      use_eq, useNB_eq, query_eq, queryNB_eq, useResult_eq, storeResult_eq, storeResultNB_eq,
      nextResult_eq, nextResultNB_eq, freeResult_eq, freeResultNB_eq, fetchRow_eq,
      fetchRowNB_eq, seekRow_eq, continueNB_eq, setOption_eq, enableNonBlocking_eq, h] <;>
    (repeat' split) <;>
    simp_all [Except.map, errStillPending, errNotConnected, errNotNonBlocking, errAlreadyHaveResult,
      errDontHaveResult, errNotPending, errNotBuffered, errRowRange]

/-- C3: when `continueNB` resumes the pending operation `k` and the library
finishes the step (`status` 0) with a rejection, `continueNB` throws, and the
connection is Idle afterwards (`status == 0`): `assertNotPending` passes and no
start entry point is refused as already pending. -/
theorem continue_rejection_returns_idle (c : Consts) (ready : Nat) (r : LibReply) (d : DB)
    (k : continue_func_t) (hnb : d.nonBlocking = true) (hp : d.status ≠ 0)
    (hk : d.continueFunc = some k) (hdone : r.status = 0) (hrej : rejected k r = true) :
    (∃ e, (continueNB c ready r d).ret = .error e) ∧
    (continueNB c ready r d).st.status = 0 ∧
    assertNotPending (continueNB c ready r d).st =
      ⟨.ok (), (continueNB c ready r d).st, []⟩ ∧
    ∀ op : Op, op.isStart = true →
      (exec c op (continueNB c ready r d).st).ret ≠ .error errStillPending := by
  have hst : (∃ e, (continueNB c ready r d).ret = .error e) ∧
      (continueNB c ready r d).st.status = 0 := by
    cases k <;> simp [rejected] at hrej <;>
      simp [continueNB_eq, callContinue_eq, hnb, hp, hk, hdone, hrej, connectContinue_eq,
        useContinue_eq, queryContinue_eq, storeResultContinue_eq, nextResultContinue_eq]
  refine ⟨hst.1, hst.2, ?_, ?_⟩
  · simp [assertNotPending_eq, hst.2]
  · intro op _
    exact idle_not_rejected_as_pending c op _ hst.2

/-- Witness for C3: a pending query whose continuation the server rejects. -/
theorem continue_rejection_returns_idle_witness :
    pendingQuery.nonBlocking = true ∧ pendingQuery.status ≠ 0 ∧
    pendingQuery.continueFunc = some .queryContinue ∧ replyRejected.status = 0 ∧
    rejected .queryContinue replyRejected = true ∧
    (continueNB sampleConsts 1 replyRejected pendingQuery).ret = .error (.THROW "Query failed") ∧
    (continueNB sampleConsts 1 replyRejected pendingQuery).st.status = 0 :=
  ⟨by decide, by decide, by decide, rfl, by decide, by decide,
    (continue_rejection_returns_idle sampleConsts 1 replyRejected pendingQuery .queryContinue
      (by decide) (by decide) (by decide) rfl (by decide)).2.1⟩

/-! ## C4: pending status and resume routine -/

theorem callContinue_preserves_PendingInv (k : continue_func_t) (c : Consts) (ready : Nat)
    (r : LibReply) (d : DB) (hnb : d.nonBlocking = true) (hk : d.continueFunc = some k) :
    PendingInv (callContinue k c ready r d).st := by
  cases k <;>
    simp only [callContinue_eq, closeContinue_eq, connectContinue_eq, useContinue_eq,
      queryContinue_eq, storeResultContinue_eq, nextResultContinue_eq, freeResultContinue_eq,
      fetchRowContinue_eq] <;>
    (repeat' split) <;> simp_all [PendingInv]

theorem exec_preserves_PendingInv (c : Consts) (op : Op) (d : DB) (h : PendingInv d) :
    PendingInv (exec c op d).st := by
  cases op
  case continueNB ready r =>
    simp only [exec, void_st, continueNB_eq]
    split
    · exact h
    · rename_i hpend
      simp only [not_or] at hpend
      cases hk : d.continueFunc with
      | none => exact h
      | some k =>
        simp only
        exact callContinue_preserves_PendingInv k c ready r d (by simpa using hpend.1) hk
  all_goals
    simp only [exec, void_st, connect_eq, connectNB_eq, close_eq, closeNB_eq,
      use_eq, useNB_eq, query_eq, queryNB_eq, useResult_eq, storeResult_eq, storeResultNB_eq,
      nextResult_eq, nextResultNB_eq, freeResult_eq, freeResultNB_eq, fetchRow_eq,
      fetchRowNB_eq, seekRow_eq, setOption_eq, enableNonBlocking_eq]
    (repeat' split) <;> simp_all [PendingInv]

theorem construct_PendingInv (db init : Option Handle) (res0 : Option MYSQL_RES) (d : DB)
    (h : (construct db init res0).1 = .ok d) : PendingInv d := by
  cases db <;> simp [construct] at h
  subst h
  simp [PendingInv]

theorem reachable_PendingInv (c : Consts) (d : DB) (h : Reachable c d) : PendingInv d := by
  induction h with
  | init db init res0 d h => exact construct_PendingInv db init res0 d h
  | step op d _ ih => exact exec_preserves_PendingInv c op d ih

/-- C4, as amended: in every state reachable from construction through the
public operations, a set pending status (`status != 0`) implies a set resume
routine (`continueFunc != 0`).  The converse is not promised: when `continueNB`
drives the pending operation to completion (returns `true`), `status` is
cleared and `continueFunc` keeps its value. -/
theorem pending_implies_resume_routine (c : Consts) (d : DB) (h : Reachable c d) :
    (d.status ≠ 0 → d.continueFunc ≠ none) ∧
    ∀ (ready : Nat) (r : LibReply), (continueNB c ready r d).ret = .ok true →
      (continueNB c ready r d).st.status = 0 ∧
      (continueNB c ready r d).st.continueFunc = d.continueFunc ∧
      d.continueFunc ≠ none := by
  refine ⟨fun hs => (reachable_PendingInv c d h hs).2, ?_⟩
  intro ready r
  rw [continueNB_eq]
  split
  · simp
  · cases hk : d.continueFunc with
    | none => simp
    | some k =>
      cases k <;>
        simp only [callContinue_eq, closeContinue_eq, connectContinue_eq, useContinue_eq,
          queryContinue_eq, storeResultContinue_eq, nextResultContinue_eq,
          freeResultContinue_eq, fetchRowContinue_eq] <;>
        (repeat' split) <;> simp_all

/-- Witness for C4: the state in which `connectNB` is pending. -/
theorem pending_implies_resume_routine_witness :
    Reachable sampleConsts pendingConnect ∧
    (pendingConnect.status ≠ 0 → pendingConnect.continueFunc ≠ none) ∧
    pendingConnect.status ≠ 0 :=
  ⟨.step _ _ (.step _ _ (.init (some 1) none none fresh rfl)),
    (pending_implies_resume_routine sampleConsts pendingConnect
      (.step _ _ (.step _ _ (.init (some 1) none none fresh rfl)))).1,
    by decide⟩

/-- C4 as stated fails: once the pending connect has been driven to completion
the status is cleared while the resume routine is still set. -/
theorem status_iff_resume_routine_counterexample :
    Reachable sampleConsts connectedNB ∧ connectedNB.status = 0 ∧
    connectedNB.continueFunc = some .connectContinue ∧
    ¬ (connectedNB.status ≠ 0 ↔ connectedNB.continueFunc ≠ none) :=
  ⟨.step _ _ (.step _ _ (.step _ _ (.init (some 1) none none fresh rfl))), by decide,
    by decide, by decide⟩

/-! ## C5: query on a connection that is not connected -/

/-- C5: for every query text, `queryNB` and `query` on a connection with
`connected == false` fail with the not-connected error, make no library call
and leave every member, `status` and `continueFunc` included, unchanged. -/
theorem query_not_connected (s : String) (r : LibReply) (d : DB) (h : d.connected = false) :
    queryNB s r d = ⟨.error errNotConnected, d, []⟩ ∧
    query s r d = ⟨.error errNotConnected, d, []⟩ := by
  simp [queryNB_eq, query_eq, h]

/-- Witness for C5: `queryNB("SELECT 1")` on a connection that never connected. -/
theorem query_not_connected_witness :
    freshNB.connected = false ∧
    queryNB "SELECT 1" replyDone freshNB = ⟨.error errNotConnected, freshNB, []⟩ ∧
    query "SELECT 1" replyDone freshNB = ⟨.error errNotConnected, freshNB, []⟩ :=
  ⟨by decide, query_not_connected "SELECT 1" replyDone freshNB (by decide)⟩

/-! ## C6: non-blocking entry points in blocking mode -/

/-- C6, as amended: on a connection for which `enableNonBlocking` never
succeeded (`nonBlocking == false`) every non-blocking start entry point fails,
makes no library call and leaves every member unchanged, so no Pending state is
created.  The error is the not-in-non-blocking-mode one, except that the entry
points which test the connection first (`closeNB`, `useNB`, `queryNB`,
`storeResultNB`, `nextResultNB`) fail with the not-connected error when
`connected == false`. -/
theorem nonblocking_start_requires_mode (c : Consts) (op : Op) (d : DB)
    (hr : Reachable c d) (hop : op.isStartNB = true) (hnb : d.nonBlocking = false) :
    exec c op d =
      ⟨.error (if op.connectedFirst = true ∧ d.connected = false then errNotConnected
        else errNotNonBlocking), d, []⟩ := by
  have hs : d.status = 0 := by
    by_contra hne
    have := (reachable_PendingInv c d hr hne).1
    simp [hnb] at this
  cases hc : d.connected <;> cases op <;> simp [Op.isStartNB] at hop <;>
    simp [exec, void, M.bind, Op.connectedFirst, connectNB_eq, closeNB_eq, useNB_eq,
      queryNB_eq, storeResultNB_eq, nextResultNB_eq, freeResultNB_eq, fetchRowNB_eq, hc, hs,
      hnb]

/-- Witness for C6: `connectNB` on a freshly constructed connection. -/
theorem nonblocking_start_requires_mode_witness :
    Reachable sampleConsts fresh ∧ (Op.connectNB sampleArgs replyDone).isStartNB = true ∧
    fresh.nonBlocking = false ∧
    exec sampleConsts (.connectNB sampleArgs replyDone) fresh =
      ⟨.error (if (Op.connectNB sampleArgs replyDone).connectedFirst = true ∧
          fresh.connected = false then errNotConnected else errNotNonBlocking), fresh, []⟩ :=
  ⟨.init (some 1) none none fresh rfl, rfl, rfl,
    nonblocking_start_requires_mode sampleConsts (.connectNB sampleArgs replyDone) fresh
      (.init (some 1) none none fresh rfl) rfl rfl⟩

/-- C6 as stated fails: `closeNB` on a freshly constructed connection fails with
the not-connected error, not with the not-in-non-blocking-mode error. -/
theorem nonblocking_start_counterexample :
    Reachable sampleConsts fresh ∧ fresh.nonBlocking = false ∧
    (Op.closeNB replyDone).isStartNB = true ∧
    (exec sampleConsts (.closeNB replyDone) fresh).ret = .error errNotConnected ∧
    (exec sampleConsts (.closeNB replyDone) fresh).ret ≠ .error errNotNonBlocking :=
  ⟨.init (some 1) none none fresh rfl, rfl, rfl, by decide, by decide⟩

/-! ## C7: acquiring a Result while one is held -/

/-- C7, as amended: on a connection that holds a Result, `useResult`,
`storeResult` and `storeResultNB` fail, make no library call and leave every
member (the held Result, `stored`, `status`, `continueFunc`) unchanged.  The
error is the result-already-held one when the connection is connected and Idle
(and, for `storeResultNB`, in non-blocking mode); the guards that come first
give the not-connected, operation-already-pending and not-in-non-blocking-mode
errors otherwise.  An acquisition succeeds only when no Result is held, and it
does succeed after `freeResult` on a connected Idle connection when the library
delivers a result. -/
theorem acquire_while_holding_fails (c : Consts) (op : Op) (d : DB)
    (hop : op.acquires = true) (hres : d.res.isSome = true) :
    exec c op d =
      ⟨.error (if d.connected = false then errNotConnected
        else if d.status ≠ 0 then errStillPending
        else if op.isStartNB = true ∧ d.nonBlocking = false then errNotNonBlocking
        else errAlreadyHaveResult), d, []⟩ ∧
    (∀ d2 : DB, (exec c op d2).ret = .ok () → d2.res = none) ∧
    (d.connected = true → d.status = 0 → ∀ r : LibReply, r.res ≠ none →
      (freeResult d).ret = .ok () ∧ (freeResult d).st.res = none ∧
      (storeResult r (freeResult d).st).ret = .ok () ∧
      (useResult r (freeResult d).st).ret = .ok ()) := by
  refine ⟨?_, ?_, ?_⟩
  · cases hc : d.connected <;> by_cases hs : d.status = 0 <;> cases hn : d.nonBlocking <;>
      cases op <;> simp [Op.acquires] at hop <;>
      simp [exec, void, M.bind, Op.isStartNB, useResult_eq, storeResult_eq, storeResultNB_eq,
        hc, hs, hn, hres]
  · intro d2
    cases hres2 : d2.res with
    | none => simp
    | some x =>
      cases op <;> simp [Op.acquires] at hop <;>
        simp only [exec, void_ret, useResult_eq, storeResult_eq, storeResultNB_eq] <;>
        (repeat' split) <;> simp_all [Except.map]
  · intro hc hs r hr
    cases hres2 : d.res with
    | none => simp [hres2] at hres
    | some x =>
      simp [freeResult_eq, storeResult_eq, useResult_eq, hc, hs, hr, hres2]

/-- Witness for C7: `storeResult` on the connection that holds the Buffered
result of `SELECT 1`. -/
theorem acquire_while_holding_fails_witness :
    (Op.storeResult replyResult).acquires = true ∧ buffered.res.isSome = true ∧
    (exec sampleConsts (.storeResult replyResult) buffered).ret = .error errAlreadyHaveResult ∧
    (exec sampleConsts (.storeResult replyResult) buffered).st = buffered ∧
    (exec sampleConsts (.storeResult replyResult) (freeResult buffered).st).ret = .ok () :=
  ⟨rfl, by decide,
    by
      rw [(acquire_while_holding_fails sampleConsts (.storeResult replyResult) buffered rfl
        (by decide)).1]
      decide,
    by
      rw [(acquire_while_holding_fails sampleConsts (.storeResult replyResult) buffered rfl
        (by decide)).1],
    by decide⟩

/-- C7 as stated fails: the connection holds a Result while `fetchRowNB` is
pending, and `storeResult` then fails with the operation-already-pending error,
not with the result-already-held error. -/
theorem acquire_while_holding_counterexample :
    Reachable sampleConsts bufferedPending ∧ bufferedPending.res.isSome = true ∧
    (Op.storeResult replyResult).acquires = true ∧
    (exec sampleConsts (.storeResult replyResult) bufferedPending).ret =
      .error errStillPending ∧
    (exec sampleConsts (.storeResult replyResult) bufferedPending).ret ≠
      .error errAlreadyHaveResult :=
  ⟨.step _ _ (.step _ _ (.step _ _ (.step _ _ (.step _ _ (.step _ _
      (.init (some 1) none none fresh rfl)))))),
    by decide, rfl, by decide, by decide⟩

/-! ## C8: seekRow -/

/-- C8: on a connection that holds a Result, `seekRow(n)` fails with the
not-buffered error when the Result is Streaming (`stored == false`, which is
what a successful `useResult` leaves), fails with the row-out-of-range error
when the Result is Buffered and `n >= rowCount`, and otherwise succeeds with
the one library call `mysql_data_seek(res, n)`. -/
theorem seekRow_spec (n : Nat) (r : LibReply) (d : DB) (x : MYSQL_RES)
    (hres : d.res = some x) :
    (d.stored = false → seekRow n r d = ⟨.error errNotBuffered, d, []⟩) ∧
    (d.stored = true → x.row_count ≤ n →
      seekRow n r d = ⟨.error (errRowRange n), d, []⟩) ∧
    (d.stored = true → n < x.row_count →
      seekRow n r d = ⟨.ok (), { d with res := some r.obj }, [.mysql_data_seek n]⟩) ∧
    (∀ (r0 : LibReply) (d0 : DB), (useResult r0 d0).ret = .ok () →
      (useResult r0 d0).st.stored = false ∧ (useResult r0 d0).st.res.isSome = true ∧
      (seekRow n r (useResult r0 d0).st).ret = .error errNotBuffered) ∧
    (∀ (r0 : LibReply) (d0 : DB), (storeResult r0 d0).ret = .ok () →
      (storeResult r0 d0).st.stored = true ∧ (storeResult r0 d0).st.res.isSome = true) := by
  refine ⟨?_, ?_, ?_, ?_, ?_⟩
  · intro hst
    simp [seekRow_eq, hres, hst]
  · intro hst hn
    simp [seekRow_eq, hres, hst, hn]
  · intro hst hn
    simp [seekRow_eq, hres, hst, Nat.not_le.mpr hn]
  · intro r0 d0
    rw [useResult_eq]
    cases hq : r0.res <;> (repeat' split) <;> simp_all [seekRow_eq]
  · intro r0 d0
    rw [storeResult_eq]
    cases hq : r0.res <;> (repeat' split) <;> simp_all

/-- Witness for C8: seeking in the Buffered one-row result of `SELECT 1`. -/
theorem seekRow_spec_witness :
    buffered.res = some selectOne ∧ buffered.stored = true ∧
    seekRow 0 replyResult buffered =
      ⟨.ok (), { buffered with res := some replyResult.obj }, [.mysql_data_seek 0]⟩ ∧
    seekRow 1 replyResult buffered = ⟨.error (errRowRange 1), buffered, []⟩ :=
  ⟨by decide, by decide,
    (seekRow_spec 0 replyResult buffered selectOne (by decide)).2.2.1 (by decide) (by decide),
    (seekRow_spec 1 replyResult buffered selectOne (by decide)).2.1 (by decide) (by decide)⟩

/-! ## C9: the field index check -/

/-- C9 fails on the code: `assertInFieldRange(i)` compares the column count with
0, not with `i`.  On the connection holding the fetched one-column row of
`SELECT 1`, index 1 is out of range and the check passes: `getField(1)` returns
a `Field` that points past the one-element array, and `getType`, `getLength`,
`getData`, `getString` and `getTime` read element 1 of a one-element array.
None of them throws the field-index error. -/
theorem field_index_not_checked :
    Reachable sampleConsts bufferedRow ∧ haveRow bufferedRow = true ∧
    (getFieldCount bufferedRow).ret = .ok 1 ∧
    (assertInFieldRange 1 bufferedRow).ret = .ok () ∧
    (getField 1 bufferedRow).ret = .ok ⟨selectOneFetched.fields, 1⟩ ∧
    selectOneFetched.fields.length = 1 ∧
    (getType 1 bufferedRow).ret =
      .error (.undefinedBehaviour "read past the end of an array") ∧
    (getLength 1 bufferedRow).ret =
      .error (.undefinedBehaviour "read past the end of an array") ∧
    (getData 1 bufferedRow).ret =
      .error (.undefinedBehaviour "read past the end of an array") ∧
    (getString 1 bufferedRow).ret =
      .error (.undefinedBehaviour "read past the end of an array") ∧
    (getTime sampleTime 1 bufferedRow).ret =
      .error (.undefinedBehaviour "read past the end of an array") ∧
    (getField 1 bufferedRow).ret ≠ .error (errFieldRange 1) :=
  ⟨.step _ _ (.step _ _ (.step _ _ (.step _ _ (.step _ _ (.step _ _
      (.init (some 1) none none fresh rfl)))))),
    by decide, by decide, by decide, by decide, by decide, by decide, by decide, by decide,
    by decide, by decide, by decide⟩

/-! ## C10: getRowCount -/

/-- C10, as amended: on a connection holding a Result, `getRowCount` succeeds
and returns the row count of that Result whatever the mode (`stored` is not
consulted); it fails, with the no-result error, only when no Result is held. -/
theorem getRowCount_any_mode (d : DB) :
    (∀ x : MYSQL_RES, d.res = some x → getRowCount d = ⟨.ok x.row_count, d, []⟩) ∧
    (d.res = none → getRowCount d = ⟨.error errDontHaveResult, d, []⟩) := by
  constructor
  · intro x hx
    simp [getRowCount_eq, hx]
  · intro hx
    simp [getRowCount_eq, hx]

/-- C10 as stated fails: on the Streaming result acquired by `useResult`,
`getRowCount` returns a count instead of failing with the not-buffered error. -/
theorem getRowCount_streaming_counterexample :
    Reachable sampleConsts streaming ∧ streaming.stored = false ∧
    streaming.res = some streamOne ∧
    (getRowCount streaming).ret = .ok 0 ∧
    (getRowCount streaming).ret ≠ .error errNotBuffered :=
  ⟨.step _ _ (.step _ _ (.step _ _ (.step _ _ (.step _ _
      (.init (some 1) none none fresh rfl))))),
    by decide, by decide, by decide, by decide⟩

/-! ## C11: the readiness mask round trip -/

theorem land_natCast (a b : Nat) : Int.land (a : Int) (b : Int) = ((a &&& b : Nat) : Int) := rfl

theorem land_zero_natCast (b : Nat) : Int.land 0 (b : Int) = 0 := by
  show Int.land ((0 : Nat) : Int) (b : Int) = 0
  rw [land_natCast]
  simp

/-- C11: when the `READY_*` and the `MYSQL_WAIT_*` constants are flags (non-zero,
pairwise without a common bit), then for every subset of Read, Write, Timeout
the status `ready_to_mysql` makes of its mask is read back by `waitRead`,
`waitWrite` and `waitTimeout` as exactly that subset. -/
theorem ready_roundtrip (c : Consts) (rd wr tm : Bool) (d : DB) (hc : c.flags = true)
    (hd : d.status = ready_to_mysql c (readyMask c rd wr tm)) :
    waitRead c d = rd ∧ waitWrite c d = wr ∧ waitTimeout c d = tm := by
  simp only [Consts.flags, Bool.and_eq_true, bne_iff_ne, beq_iff_eq, ne_eq] at hc
  obtain ⟨⟨⟨⟨⟨⟨⟨⟨⟨⟨⟨h1, h2⟩, h3⟩, h12⟩, h13⟩, h23⟩, g1⟩, g2⟩, g3⟩, g12⟩, g13⟩, g23⟩ :=
    hc
  have h21 : c.READY_WRITE &&& c.READY_READ = 0 := by rw [Nat.and_comm]; exact h12
  have h31 : c.READY_TIMEOUT &&& c.READY_READ = 0 := by rw [Nat.and_comm]; exact h13
  have h32 : c.READY_TIMEOUT &&& c.READY_WRITE = 0 := by rw [Nat.and_comm]; exact h23
  have g21 : c.MYSQL_WAIT_WRITE &&& c.MYSQL_WAIT_READ = 0 := by rw [Nat.and_comm]; exact g12
  have g31 : c.MYSQL_WAIT_TIMEOUT &&& c.MYSQL_WAIT_READ = 0 := by rw [Nat.and_comm]; exact g13
  have g32 : c.MYSQL_WAIT_TIMEOUT &&& c.MYSQL_WAIT_WRITE = 0 := by rw [Nat.and_comm]; exact g23
  cases rd <;> cases wr <;> cases tm <;>
    simp [waitRead, waitWrite, waitTimeout, hd, land_natCast, land_zero_natCast,
      ready_to_mysql, readyMask, Nat.and_distrib_right, h1, h2, h3, h12, h13, h23, h21, h31,
      h32, g1, g2, g3, g12, g13, g23, g21, g31, g32]

/-- Witness for C11: the status of the pending connect is the image of the mask
with Write alone, and it is read back as Write alone. -/
theorem ready_roundtrip_witness :
    sampleConsts.flags = true ∧
    pendingConnect.status =
      ready_to_mysql sampleConsts (readyMask sampleConsts false true false) ∧
    (waitRead sampleConsts pendingConnect = false ∧
      waitWrite sampleConsts pendingConnect = true ∧
      waitTimeout sampleConsts pendingConnect = false) :=
  ⟨by decide, by decide,
    ready_roundtrip sampleConsts false true false pendingConnect (by decide) (by decide)⟩

/-! ## C12: getBit -/

theorem readAt_eq {α : Type} (xs : List α) (i : Nat) (d : DB) :
    readAt xs i d =
      match xs[i]? with
      | some x => ⟨.ok x, d, []⟩
      | none => ⟨.error (.undefinedBehaviour "read past the end of an array"), d, []⟩ := by
  cases h : xs[i]? <;> simp [readAt, h]

theorem binaryValue_cons (ch : Char) (s : List Char) :
    binaryValue (ch :: s) = bitValue ch * 2 ^ s.length + binaryValue s := by
  simp [binaryValue, Nat.ofDigits_append, Nat.ofDigits_singleton]
  ring

theorem binaryValue_lt (s : List Char) : binaryValue s < 2 ^ s.length := by
  induction s with
  | nil => simp [binaryValue]
  | cons ch s ih =>
    rw [binaryValue_cons]
    have hb : bitValue ch ≤ 1 := by
      unfold bitValue
      split <;> omega
    have : bitValue ch * 2 ^ s.length ≤ 1 * 2 ^ s.length := Nat.mul_le_mul_right _ hb
    simp only [List.length_cons, pow_succ]
    omega

theorem getBitLoop_eq (s : List Char) :
    ∀ k x : Nat, (∀ ch ∈ s, ch = '0' ∨ ch = '1') → x < 2 ^ k → k + s.length ≤ 64 →
      getBitLoop s x = x * 2 ^ s.length + binaryValue s := by
  induction s with
  | nil =>
    intro k x _ _ _
    simp [getBitLoop, binaryValue]
  | cons ch s ih =>
    intro k x h01 hx hk
    have hch : ch = '0' ∨ ch = '1' := h01 ch (by simp)
    have hnz : ch ≠ Char.ofNat 0 := by
      rcases hch with h | h <;> rw [h] <;> decide
    simp only [List.length_cons] at hk
    have hpow : 2 ^ (k + 1) ≤ 2 ^ 64 := Nat.pow_le_pow_right (by decide) (by omega)
    have hk1 : 2 ^ (k + 1) = 2 * 2 ^ k := by rw [pow_succ]; ring
    have hshift : (x <<< 1) % 2 ^ 64 = 2 * x := by
      rw [Nat.shiftLeft_eq, pow_one, Nat.mul_comm, Nat.mod_eq_of_lt (by omega)]
    have hor : 2 * x ||| 1 = 2 * x + 1 := by
      have := Nat.mul_add_lt_is_or (i := 1) (b := 1) (by decide) x
      simpa using this.symm
    have hrest : ∀ c2 ∈ s, c2 = '0' ∨ c2 = '1' := fun c2 hc2 => h01 c2 (by simp [hc2])
    rw [binaryValue_cons]
    simp only [getBitLoop, hnz, if_false, hshift]
    rcases hch with h | h
    · subst h
      have h1 : ('0' = '1') = False := by decide
      simp only [h1, if_false]
      rw [ih (k + 1) (2 * x) hrest (by omega) (by omega)]
      simp [bitValue, pow_succ]
      ring
    · subst h
      simp only [if_true, hor]
      rw [ih (k + 1) (2 * x + 1) hrest (by omega) (by omega)]
      simp [bitValue, pow_succ]
      ring

/-- C12: for a column `i` of type `BIT` whose text in the current row is a string
of the characters `0` and `1` of length at most 64, `getBit(i)` returns the
unsigned integer whose big-endian binary representation is that string, and
changes nothing. -/
theorem getBit_binary (i : Nat) (d : DB) (x : MYSQL_RES) (row : MYSQL_ROW) (s : List Char)
    (hres : d.res = some x) (hrow : x.current_row = some row) (hi : i < x.field_count)
    (hty : x.fields[i]? = some ⟨.TYPE_BIT⟩) (hs : row[i]? = some s)
    (h01 : ∀ ch ∈ s, ch = '0' ∨ ch = '1') (hlen : s.length ≤ 64) :
    getBit i d = ⟨.ok (binaryValue s), d, []⟩ := by
  have hcnt : x.field_count ≠ 0 := by omega
  have hloop := getBitLoop_eq s 0 0 h01 (by decide) (by omega)
  simp [getBit, getType, getField, Field.getType, assertInFieldRange_eq, derefRes, derefRow,
    readAt_eq,
    M.bind, hres, hrow, hcnt, hty, hs, hloop]

/-- Witness for C12: the stored text `101` decodes to 5. -/
theorem getBit_binary_witness :
    bitRow.res = some bitRes ∧ bitRes.current_row = some [['1', '0', '1']] ∧
    0 < bitRes.field_count ∧ bitRes.fields[0]? = some ⟨.TYPE_BIT⟩ ∧
    [['1', '0', '1']][0]? = some ['1', '0', '1'] ∧
    (∀ ch ∈ ['1', '0', '1'], ch = '0' ∨ ch = '1') ∧ ['1', '0', '1'].length ≤ 64 ∧
    getBit 0 bitRow = ⟨.ok (binaryValue ['1', '0', '1']), bitRow, []⟩ ∧
    binaryValue ['1', '0', '1'] = 5 :=
  ⟨by decide, by decide, by decide, by decide, by decide, by decide, by decide,
    getBit_binary 0 bitRow bitRes [['1', '0', '1']] ['1', '0', '1'] (by decide) (by decide)
      (by decide) (by decide) (by decide) (by decide) (by decide),
    by decide⟩

/-! ## C13: getSet -/

/-- C13 fails on the code: `getSet` inserts a component only when it meets the
comma that ends it, so the component after the last comma is never inserted.
For the `SET` text `a,b` and an empty set the result is the set with `a`
alone; the component `b` is missing. -/
theorem getSet_drops_last_component :
    Reachable sampleConsts setRow ∧ (getType 0 setRow).ret = .ok .TYPE_SET ∧
    (getData 0 setRow).ret = .ok ['a', ',', 'b'] ∧
    List.splitOn ',' ['a', ',', 'b'] = [['a'], ['b']] ∧
    getSet 0 [] setRow = ⟨.ok [['a']], setRow, []⟩ ∧
    ['b'] ∉ [['a']] :=
  ⟨.step _ _ (.step _ _ (.step _ _ (.step _ _ (.step _ _ (.step _ _
      (.init (some 1) none none fresh rfl)))))),
    by decide, by decide, by decide, rfl, by decide⟩

/-! ## C14: close -/

/-- C14: `close` and `closeNB` fail, without a library call and without changing
any member, unless the connection is connected, Idle and holds no Result.  When
those three hold, `close` calls `mysql_close` and clears `connected`; so does
`closeNB` in non-blocking mode when the library finishes at once, and so does
the continuation of a pending close when the library finishes.  After any of
these, `close` and `closeNB` fail with the not-connected error. -/
theorem close_requires_and_clears (c : Consts) (ready : Nat) (r r2 : LibReply) (d : DB) :
    ((d.connected = false ∨ d.status ≠ 0 ∨ d.res.isSome = true) →
      (∃ e, close d = ⟨.error e, d, []⟩) ∧ (∃ e, closeNB r d = ⟨.error e, d, []⟩)) ∧
    (d.connected = true → d.status = 0 → d.res = none →
      close d = ⟨.ok (), { d with connected := false }, [.mysql_close]⟩ ∧
      close (close d).st = ⟨.error errNotConnected, (close d).st, []⟩ ∧
      closeNB r2 (close d).st = ⟨.error errNotConnected, (close d).st, []⟩) ∧
    (d.connected = true → d.status = 0 → d.res = none → d.nonBlocking = true →
      r.status = 0 →
      closeNB r d = ⟨.ok true, { d with status := 0, connected := false },
        [.mysql_close_start]⟩ ∧
      close (closeNB r d).st = ⟨.error errNotConnected, (closeNB r d).st, []⟩ ∧
      closeNB r2 (closeNB r d).st = ⟨.error errNotConnected, (closeNB r d).st, []⟩) ∧
    (d.nonBlocking = true → d.status ≠ 0 → d.continueFunc = some .closeContinue →
      r.status = 0 →
      continueNB c ready r d = ⟨.ok true, { d with status := 0, connected := false },
        [.mysql_close_cont (ready_to_mysql c ready)]⟩ ∧
      close (continueNB c ready r d).st =
        ⟨.error errNotConnected, (continueNB c ready r d).st, []⟩ ∧
      closeNB r2 (continueNB c ready r d).st =
        ⟨.error errNotConnected, (continueNB c ready r d).st, []⟩) := by
  refine ⟨?_, ?_, ?_, ?_⟩
  · intro h
    rw [close_eq, closeNB_eq]
    cases hc : d.connected <;> by_cases hs : d.status = 0 <;> cases hres : d.res <;>
      cases hn : d.nonBlocking <;> simp_all
  · intro hc hs hres
    simp [close_eq, closeNB_eq, hc, hs, hres]
  · intro hc hs hres hn hr
    simp [close_eq, closeNB_eq, hc, hs, hres, hn, hr]
  · intro hn hs hk hr
    simp [continueNB_eq, callContinue_eq, closeContinue_eq, close_eq, closeNB_eq, hn, hs, hk,
      hr]

/-! ## C15: construction -/

/-- C15 fails on the code: the test in the constructor body reads the parameter
`db`, not the member that received the handle from `mysql_init`.  Without a
supplied handle the constructor calls `mysql_init` and then throws, whatever
`mysql_init` returned; with the valid handle 1 returned, no object is made. -/
theorem construct_without_handle_throws (init : Option Handle) (res0 : Option MYSQL_RES) :
    construct none init res0 =
      (.error (.THROW "Failed to create MariaDB"), [LibCall.mysql_init]) ∧
    (construct none (some 1) none).1 ≠
      .ok ⟨some 1, none, false, false, false, 0, none⟩ := by
  constructor
  · simp [construct]
  · simp [construct]

/-! ## C16: query while a Result is held -/

/-- C16, as amended: on a connected, Idle connection `query` issues the query to
the library whether or not a Result is held, and so does `queryNB` in
non-blocking mode, where a start that would block returns pending; the held
Result is left as it is.  Neither of them tests for a held Result. -/
theorem query_ignores_held_result (s : String) (r : LibReply) (d : DB)
    (hc : d.connected = true) (hs : d.status = 0) :
    (query s r d).calls = [.mysql_real_query s] ∧ (query s r d).st = d ∧
    (r.ret = 0 → (query s r d).ret = .ok ()) ∧
    (d.nonBlocking = true →
      (queryNB s r d).calls = [.mysql_real_query_start s] ∧
      (queryNB s r d).st.res = d.res ∧
      (r.status = 0 → r.ret = 0 → (queryNB s r d).ret = .ok true) ∧
      (r.status ≠ 0 → (queryNB s r d).ret = .ok false)) := by
  rw [query_eq, queryNB_eq]
  by_cases hq : r.ret = 0 <;> by_cases hr : r.status = 0 <;> cases hn : d.nonBlocking <;>
    simp [hc, hs, hq, hr, hn]

/-- Witness for C16: a query on the connection that holds the Buffered result of
`SELECT 1` with its row fetched. -/
theorem query_ignores_held_result_witness :
    bufferedRow.connected = true ∧ bufferedRow.status = 0 ∧
    bufferedRow.res = some selectOneFetched ∧
    (query "SELECT 2" replyDone bufferedRow).calls = [.mysql_real_query "SELECT 2"] ∧
    (query "SELECT 2" replyDone bufferedRow).st = bufferedRow :=
  ⟨by decide, by decide, by decide,
    (query_ignores_held_result "SELECT 2" replyDone bufferedRow (by decide) (by decide)).1,
    (query_ignores_held_result "SELECT 2" replyDone bufferedRow (by decide) (by decide)).2.1⟩

/-- C16 as stated fails: on the connected, Idle connection that holds the
Buffered result of `SELECT 1`, `query` and `queryNB` succeed and the query has
been issued to the library. -/
theorem query_with_held_result_counterexample :
    Reachable sampleConsts buffered ∧ buffered.connected = true ∧ buffered.status = 0 ∧
    buffered.res = some selectOne ∧
    query "SELECT 2" replyDone buffered =
      ⟨.ok (), buffered, [.mysql_real_query "SELECT 2"]⟩ ∧
    queryNB "SELECT 2" replyDone buffered =
      ⟨.ok true, buffered, [.mysql_real_query_start "SELECT 2"]⟩ :=
  ⟨.step _ _ (.step _ _ (.step _ _ (.step _ _ (.step _ _
      (.init (some 1) none none fresh rfl))))),
    by decide, by decide, by decide, rfl, rfl⟩

/-! ## C17: getFieldCount -/

/-- C17, as amended: on a connection holding a Result, `getFieldCount` returns
the column count when the Result has a current row, and fails with the no-row
error when it has none, as is the case after a completed store-result and
before the first `fetchRow`.  It never makes a library call or changes a
member. -/
theorem getFieldCount_needs_row (d : DB) (x : MYSQL_RES) (hres : d.res = some x) :
    (x.current_row ≠ none → getFieldCount d = ⟨.ok x.field_count, d, []⟩) ∧
    (x.current_row = none → getFieldCount d = ⟨.error errDontHaveRow, d, []⟩) := by
  cases hrow : x.current_row <;> simp [getFieldCount_eq, hres, hrow]

/-- Witness for C17: after one `fetchRow` on the result of `SELECT 1` the column
count is 1. -/
theorem getFieldCount_needs_row_witness :
    bufferedRow.res = some selectOneFetched ∧ selectOneFetched.current_row ≠ none ∧
    getFieldCount bufferedRow = ⟨.ok selectOneFetched.field_count, bufferedRow, []⟩ ∧
    selectOneFetched.field_count = 1 :=
  ⟨by decide, by decide,
    (getFieldCount_needs_row bufferedRow selectOneFetched (by decide)).1 (by decide), rfl⟩

/-- C17 as stated fails: in the `SELECT 1` scenario, right after the
store-result has been drained and before the first `fetchRow`, the connection
holds the Result and `getFieldCount` fails with the no-row error. -/
theorem getFieldCount_before_fetch_counterexample :
    Reachable sampleConsts storedNB ∧ storedNB.res = some selectOne ∧
    storedNB.status = 0 ∧ storedNB.stored = true ∧
    getFieldCount storedNB = ⟨.error errDontHaveRow, storedNB, []⟩ ∧
    (getFieldCount storedNB).ret ≠ .ok 1 :=
  ⟨.step _ _ (.step _ _ (.step _ _ (.step _ _ (.step _ _ (.step _ _ (.step _ _
      (.init (some 1) none none fresh rfl))))))),
    by decide, by decide, by decide, rfl, by decide⟩

/-! ## C18: when connected becomes true -/

/-- C18: for `connect`, `connectNB` and `connectContinue`: when the connect step
is still pending or the call throws, `connected` keeps its value; when the call
returns with the step finished, the library has delivered a valid handle and
`connected` is true; and a finished step without a handle throws "Failed to
connect" (through `raiseError` in `connect` and `connectNB`, through `THROW`
in `connectContinue`). -/
theorem connected_only_on_valid_handle (c : Consts) (a : ConnectArgs) (ready : Nat)
    (r : LibReply) (d : DB) :
    (((connect a r d).ret ≠ .ok () → (connect a r d).st.connected = d.connected) ∧
      ((connect a r d).ret = .ok () →
        r.handle ≠ none ∧ (connect a r d).st.connected = true) ∧
      (d.status = 0 → r.handle = none →
        (connect a r d).ret = .error (.raiseError "Failed to connect"))) ∧
    (((r.status ≠ 0 ∨ (connectNB a r d).ret ≠ .ok true) →
        (connectNB a r d).st.connected = d.connected) ∧
      ((connectNB a r d).ret = .ok true →
        r.status = 0 ∧ r.handle ≠ none ∧ (connectNB a r d).st.connected = true) ∧
      (d.status = 0 → d.nonBlocking = true → r.status = 0 → r.handle = none →
        (connectNB a r d).ret = .error (.raiseError "Failed to connect"))) ∧
    (((r.status ≠ 0 ∨ (connectContinue c ready r d).ret ≠ .ok true) →
        (connectContinue c ready r d).st.connected = d.connected) ∧
      ((connectContinue c ready r d).ret = .ok true →
        r.status = 0 ∧ r.handle ≠ none ∧
        (connectContinue c ready r d).st.connected = true) ∧
      (r.status = 0 → r.handle = none →
        (connectContinue c ready r d).ret = .error (.THROW "Failed to connect"))) := by
  rw [connect_eq, connectNB_eq, connectContinue_eq]
  by_cases hs : d.status = 0 <;> cases hn : d.nonBlocking <;> by_cases hr : r.status = 0 <;>
    cases hh : r.handle <;> simp [hs, hn, hr, hh]

/-! ## C19: blocking and non-blocking forms -/

@[simp]
theorem Out.after_ret {α : Type} (cs : List LibCall) (o : Out α) : (o.after cs).ret = o.ret := by
  rcases o with ⟨x, d, cs2⟩
  rfl

@[simp]
theorem Out.after_st {α : Type} (cs : List LibCall) (o : Out α) : (o.after cs).st = o.st := by
  rcases o with ⟨x, d, cs2⟩
  rfl

theorem start_guards_fail (k : Dual) (r r2 : LibReply) (d : DB) (hs : d.status = 0)
    (hn : d.nonBlocking = true) (hg : k.guards d = false) :
    ∃ e, k.startNB r d = ⟨.error e, d, []⟩ ∧ k.blocking r2 d = ⟨.error e, d, []⟩ := by
  cases k <;> cases hc : d.connected <;> cases hres : d.res <;>
    simp [Dual.guards, hc, hres] at hg <;>
    simp [Dual.startNB, Dual.blocking, void, M.bind, connect_eq, connectNB_eq, close_eq,
      closeNB_eq, use_eq, useNB_eq, query_eq, queryNB_eq, storeResult_eq, storeResultNB_eq,
      nextResult_eq, nextResultNB_eq, freeResult_eq, freeResultNB_eq, fetchRow_eq,
      fetchRowNB_eq, hs, hn, hc, hres]

theorem start_pending (k : Dual) (r : LibReply) (d : DB) (hs : d.status = 0)
    (hn : d.nonBlocking = true) (hg : k.guards d = true) (hr : r.status ≠ 0) :
    (k.startNB r d).ret = .ok false ∧ Mid k.continuation d (k.startNB r d).st := by
  cases k <;> cases hc : d.connected <;> cases hres : d.res <;>
    simp [Dual.guards, hc, hres] at hg <;>
    simp [Dual.startNB, Dual.continuation, Mid, connectNB_eq, closeNB_eq, useNB_eq, queryNB_eq,
      storeResultNB_eq, nextResultNB_eq, freeResultNB_eq, fetchRowNB_eq, hs, hn, hc, hres, hr]

theorem start_finished (k : Dual) (r : LibReply) (d : DB) (hs : d.status = 0)
    (hn : d.nonBlocking = true) (hg : k.guards d = true) (hr : r.status = 0) :
    Agree (k.startNB r d) (k.blocking r d) ∧ (k.startNB r d).ret ≠ .ok false := by
  cases k with
  | connect a =>
    cases hh : r.handle <;>
      simp [Dual.startNB, Dual.blocking, Agree, connect_eq, connectNB_eq, hs, hn, hr, hh]
  | close =>
    simp only [Dual.guards, Bool.and_eq_true, Option.isNone_iff_eq_none] at hg
    simp [Dual.startNB, Dual.blocking, Agree, close_eq, closeNB_eq, hs, hn, hr, hg.1, hg.2]
  | use n =>
    simp only [Dual.guards] at hg
    by_cases hq : r.ret = 0 <;>
      simp [Dual.startNB, Dual.blocking, Agree, use_eq, useNB_eq, hs, hn, hr, hg, hq]
  | query q =>
    simp only [Dual.guards] at hg
    by_cases hq : r.ret = 0 <;>
      simp [Dual.startNB, Dual.blocking, Agree, query_eq, queryNB_eq, hs, hn, hr, hg, hq]
  | storeResult =>
    simp only [Dual.guards, Bool.and_eq_true, Option.isNone_iff_eq_none] at hg
    cases hq : r.res <;>
      simp [Dual.startNB, Dual.blocking, Agree, storeResult_eq, storeResultNB_eq, hs, hn, hr,
        hg.1, hg.2, hq]
  | nextResult =>
    simp only [Dual.guards] at hg
    by_cases hq : 0 < r.ret <;>
      simp [Dual.startNB, Dual.blocking, Agree, void_ret, void_st, nextResult_eq,
        nextResultNB_eq, Except.map, hs, hn, hr, hg, hq]
  | freeResult =>
    simp only [Dual.guards] at hg
    simp [Dual.startNB, Dual.blocking, Agree, freeResult_eq, freeResultNB_eq, hs, hn, hr, hg]
  | fetchRow =>
    simp only [Dual.guards] at hg
    simp [Dual.startNB, Dual.blocking, Agree, void_ret, void_st, fetchRow_eq, fetchRowNB_eq,
      Except.map, hs, hn, hr, hg]

theorem continue_pending (kc : continue_func_t) (c : Consts) (ready : Nat) (p : LibReply)
    (d0 dm : DB) (hm : Mid kc d0 dm) (hp : p.status ≠ 0) :
    (continueNB c ready p dm).ret = .ok false ∧ Mid kc d0 (continueNB c ready p dm).st := by
  obtain ⟨hn, hs, hk, hc, hst, hres⟩ := hm
  cases kc <;>
    simp [Mid, continueNB_eq, callContinue_eq, closeContinue_eq, connectContinue_eq,
      useContinue_eq, queryContinue_eq, storeResultContinue_eq, nextResultContinue_eq,
      freeResultContinue_eq, fetchRowContinue_eq, hn, hs, hk, hp, hc, hst] <;>
    simp_all

theorem continue_finished (k : Dual) (c : Consts) (ready : Nat) (r : LibReply) (d0 dm : DB)
    (hm : Mid k.continuation d0 dm) (hs0 : d0.status = 0) (hg : k.guards d0 = true)
    (hr : r.status = 0) :
    Agree (continueNB c ready r dm) (k.blocking r d0) ∧
    (continueNB c ready r dm).ret ≠ .ok false := by
  obtain ⟨hn, hs, hk, hc, hst, hres⟩ := hm
  cases k with
  | connect a =>
    simp only [Dual.continuation] at hk hres
    cases hh : r.handle <;>
      simp [Dual.blocking, Agree, continueNB_eq, callContinue_eq, connectContinue_eq,
        connect_eq, hn, hs, hk, hs0, hr, hh, hst, hres]
  | close =>
    simp only [Dual.continuation] at hk hres
    simp only [Dual.guards, Bool.and_eq_true, Option.isNone_iff_eq_none] at hg
    simp [Dual.blocking, Agree, continueNB_eq, callContinue_eq, closeContinue_eq, close_eq,
      hn, hs, hk, hs0, hr, hst, hres, hg.1, hg.2]
  | use n =>
    simp only [Dual.continuation] at hk hres
    simp only [Dual.guards] at hg
    by_cases hq : r.ret = 0 <;>
      simp [Dual.blocking, Agree, continueNB_eq, callContinue_eq, useContinue_eq, use_eq,
        hn, hs, hk, hs0, hr, hq, hc, hst, hres, hg]
  | query q =>
    simp only [Dual.continuation] at hk hres
    simp only [Dual.guards] at hg
    by_cases hq : r.ret = 0 <;>
      simp [Dual.blocking, Agree, continueNB_eq, callContinue_eq, queryContinue_eq, query_eq,
        hn, hs, hk, hs0, hr, hq, hc, hst, hres, hg]
  | storeResult =>
    simp only [Dual.continuation] at hk
    simp only [Dual.guards, Bool.and_eq_true, Option.isNone_iff_eq_none] at hg
    cases hq : r.res <;>
      simp [Dual.blocking, Agree, continueNB_eq, callContinue_eq, storeResultContinue_eq,
        storeResult_eq, hn, hs, hk, hs0, hr, hq, hc, hst, hg.1, hg.2]
  | nextResult =>
    simp only [Dual.continuation] at hk hres
    simp only [Dual.guards] at hg
    by_cases hq : 0 < r.ret <;>
      simp [Dual.blocking, Agree, continueNB_eq, callContinue_eq, nextResultContinue_eq,
        nextResult_eq, void_ret, void_st, Except.map, hn, hs, hk, hs0, hr, hq, hc, hst, hres,
        hg]
  | freeResult =>
    simp only [Dual.continuation] at hk hres
    simp only [Dual.guards] at hg
    simp [Dual.blocking, Agree, continueNB_eq, callContinue_eq, freeResultContinue_eq,
      freeResult_eq, hn, hs, hk, hs0, hr, hc, hst, hres, hg]
  | fetchRow =>
    simp only [Dual.continuation] at hk hres
    simp only [Dual.guards] at hg
    have hsome : dm.res.isSome = true := by rw [hres]; exact hg
    obtain ⟨y, hy⟩ := Option.isSome_iff_exists.mp hsome
    simp [Dual.blocking, Agree, continueNB_eq, callContinue_eq, fetchRowContinue_eq,
      fetchRow_eq, void_ret, void_st, Except.map, hn, hs, hk, hs0, hr, hc, hst, hg, hy]

theorem drain_cons (c : Consts) (ready : Nat) (p : LibReply) (rest : List (Nat × LibReply))
    (d : DB) (h : (continueNB c ready p d).ret = .ok false) :
    (drain c ((ready, p) :: rest) d).ret = (drain c rest (continueNB c ready p d).st).ret ∧
    (drain c ((ready, p) :: rest) d).st = (drain c rest (continueNB c ready p d).st).st := by
  rcases hcont : continueNB c ready p d with ⟨x, d2, cs⟩
  rw [hcont] at h
  simp only at h
  subst h
  simp [drain, M.bind, hcont]

theorem drain_last (c : Consts) (ready : Nat) (r : LibReply) (d : DB)
    (h : (continueNB c ready r d).ret ≠ .ok false) :
    (drain c [(ready, r)] d).ret = (continueNB c ready r d).ret ∧
    (drain c [(ready, r)] d).st = (continueNB c ready r d).st := by
  rcases hcont : continueNB c ready r d with ⟨x, d2, cs⟩
  rw [hcont] at h
  simp only at h
  rcases x with e | v
  · simp [drain, M.bind, hcont]
  · cases v
    · exact absurd rfl h
    · simp [drain, M.bind, hcont]

theorem drain_agrees (k : Dual) (c : Consts) (ready : Nat) (r : LibReply) (d0 : DB)
    (hs0 : d0.status = 0) (hg : k.guards d0 = true) (hr : r.status = 0) :
    ∀ (ps : List (Nat × LibReply)) (dm : DB), Mid k.continuation d0 dm →
      (∀ p ∈ ps, p.2.status ≠ 0) →
      Agree (drain c (ps ++ [(ready, r)]) dm) (k.blocking r d0) := by
  intro ps
  induction ps with
  | nil =>
    intro dm hm _
    have hfin := continue_finished k c ready r d0 dm hm hs0 hg hr
    have hd := drain_last c ready r dm hfin.2
    simp only [List.nil_append, Agree, hd.1, hd.2]
    exact hfin.1
  | cons p ps ih =>
    intro dm hm hps
    obtain ⟨rd, p⟩ := p
    have hp : p.status ≠ 0 := hps (rd, p) (by simp)
    have hstep := continue_pending k.continuation c rd p d0 dm hm hp
    have hd := drain_cons c rd p (ps ++ [(ready, r)]) dm hstep.1
    have hrec := ih (continueNB c rd p dm).st hstep.2
      (fun q hq => hps q (by simp [hq]))
    simp only [List.cons_append, Agree, hd.1, hd.2]
    exact hrec

theorem runNB_pending (c : Consts) (k : Dual) (rd : Nat) (p : LibReply)
    (rest : List (Nat × LibReply)) (d : DB) (h : (k.startNB p d).ret = .ok false) :
    (runNB c k ((rd, p) :: rest) d).ret = (drain c rest (k.startNB p d).st).ret ∧
    (runNB c k ((rd, p) :: rest) d).st = (drain c rest (k.startNB p d).st).st := by
  rcases hst : k.startNB p d with ⟨x, d2, cs⟩
  rw [hst] at h
  simp only at h
  subst h
  simp [runNB, M.bind, hst]

theorem runNB_finished (c : Consts) (k : Dual) (rd : Nat) (r : LibReply)
    (rest : List (Nat × LibReply)) (d : DB) (h : (k.startNB r d).ret ≠ .ok false) :
    (runNB c k ((rd, r) :: rest) d).ret = (k.startNB r d).ret ∧
    (runNB c k ((rd, r) :: rest) d).st = (k.startNB r d).st := by
  rcases hst : k.startNB r d with ⟨x, d2, cs⟩
  rw [hst] at h
  simp only at h
  rcases x with e | v
  · simp [runNB, M.bind, hst]
  · cases v
    · exact absurd rfl h
    · simp [runNB, M.bind, hst]

/-- C19: take an operation with both forms, a non-blocking Idle connection, and
a library outcome: the answers `ps` that report "still pending" followed by the
answer `r` that reports "finished".  The non-blocking run (start, then
`continueNB` until it returns `true`) fails iff the blocking call with the
answer `r` fails; and when it succeeds it has completed, with the same
`connected`, held Result and `stored` as the blocking call, and `status == 0`.
The values the two forms return are not compared. -/
theorem nonblocking_agrees_with_blocking (c : Consts) (k : Dual) (d : DB)
    (ps : List (Nat × LibReply)) (ready : Nat) (r : LibReply)
    (hn : d.nonBlocking = true) (hs : d.status = 0) (hr : r.status = 0)
    (hps : ∀ p ∈ ps, p.2.status ≠ 0) :
    ((∃ e, (runNB c k (ps ++ [(ready, r)]) d).ret = .error e) ↔
      (∃ e, (k.blocking r d).ret = .error e)) ∧
    (∀ v, (runNB c k (ps ++ [(ready, r)]) d).ret = .ok v →
      v = true ∧
      (runNB c k (ps ++ [(ready, r)]) d).st.connected = (k.blocking r d).st.connected ∧
      (runNB c k (ps ++ [(ready, r)]) d).st.res = (k.blocking r d).st.res ∧
      (runNB c k (ps ++ [(ready, r)]) d).st.stored = (k.blocking r d).st.stored ∧
      (runNB c k (ps ++ [(ready, r)]) d).st.status = 0) := by
  show Agree (runNB c k (ps ++ [(ready, r)]) d) (k.blocking r d)
  cases hg : k.guards d with
  | false =>
    cases ps with
    | nil =>
      obtain ⟨e, h1, h2⟩ := start_guards_fail k r r d hs hn hg
      have hrun := runNB_finished c k ready r [] d (by rw [h1]; simp)
      simp only [List.nil_append, Agree, hrun.1, hrun.2, h1, h2]
      simp
    | cons p ps =>
      obtain ⟨rd, p⟩ := p
      obtain ⟨e, h1, h2⟩ := start_guards_fail k p r d hs hn hg
      have hrun := runNB_finished c k rd p (ps ++ [(ready, r)]) d (by rw [h1]; simp)
      simp only [List.cons_append, Agree, hrun.1, hrun.2, h1, h2]
      simp
  | true =>
    cases ps with
    | nil =>
      have hfin := start_finished k r d hs hn hg hr
      have hrun := runNB_finished c k ready r [] d hfin.2
      simp only [List.nil_append, Agree, hrun.1, hrun.2]
      exact hfin.1
    | cons p ps =>
      obtain ⟨rd, p⟩ := p
      have hp : p.status ≠ 0 := hps (rd, p) (by simp)
      have hstart := start_pending k p d hs hn hg hp
      have hrun := runNB_pending c k rd p (ps ++ [(ready, r)]) d hstart.1
      have hdrain := drain_agrees k c ready r d hs hg hr ps (k.startNB p d).st hstart.2
        (fun q hq => hps q (by simp [hq]))
      simp only [List.cons_append, Agree, hrun.1, hrun.2]
      exact hdrain

/-- Witness for C19: `SELECT 1` sent with `queryNB`, pending once, then finished. -/
theorem nonblocking_agrees_with_blocking_witness :
    connectedNB.nonBlocking = true ∧ connectedNB.status = 0 ∧ replyDone.status = 0 ∧
    (∀ p ∈ [(1, replyPending)], p.2.status ≠ 0) ∧
    (runNB sampleConsts (.query "SELECT 1") ([(1, replyPending)] ++ [(1, replyDone)])
      connectedNB).ret = .ok true ∧
    (runNB sampleConsts (.query "SELECT 1") ([(1, replyPending)] ++ [(1, replyDone)])
      connectedNB).st.status = 0 :=
  ⟨by decide, by decide, rfl, by decide, by decide,
    ((nonblocking_agrees_with_blocking sampleConsts (.query "SELECT 1") connectedNB
      [(1, replyPending)] 1 replyDone (by decide) (by decide) rfl (by decide)).2 true
      (by decide)).2.2.2.2⟩

/-! ## C20: the resume routine of a pending operation -/

theorem reachable_traced (c : Consts) (d : DB) (h : Reachable c d) :
    ∃ g, Traced c d g := by
  induction h with
  | init db init res0 d h => exact ⟨none, .init db init res0 d h⟩
  | step op d _ ih =>
    obtain ⟨g, hg⟩ := ih
    exact ⟨_, .step op d g hg⟩

end MariaDB
